import Mathlib

/-!
# CppMicroServices: module lifecycle and listener table

A shallow embedding of `Module::Init`, `Module::Uninit`, `Module::IsLoaded`,
`Module::Start`, `Module::Stop`, `Module::GetModuleContext` and the manifest
key accessors from `core/src/module/usModule.cpp`, and a model of the
framework's listener table and framework-event dispatch written from the
specification, followed by theorems about them.

The methods run against a `World`: the module's private data `d`, an
allocation counter for `ModuleContext` objects, and the chronological trace
of every call the methods make into code outside `usModule.cpp`.  The
behaviour of that outside code (symbol lookup, the activator hook, the
activator's `Load`/`Unload`, the autoload step) is a parameter, `Env`.
-/

namespace us

/-! ## Data model -/

/-- An exception object in flight, identified by its message. -/
structure Exn where
  what : String
deriving DecidableEq, Repr

/-- Modelled from the spec: the enumeration `ModuleEvent::Type`, declared in
`usModuleEvent.h`; the spec's data model lists its six values. -/
inductive ModuleEventType where
  | INSTALLED
  | LOADING
  | LOADED
  | UNLOADING
  | UNLOADED
  | UNINSTALLED
deriving DecidableEq, Repr

/-- Modelled from the spec: the types of a `FrameworkEvent`, as listed in the
spec's data model.  `usModule.cpp` constructs no framework event. -/
inductive FrameworkEventType where
  | STARTED
  | ERROR
  | WARNING
  | INFO
  | STOPPED
  | WAIT_TIMEDOUT
deriving DecidableEq, Repr

/-- A `ModuleContext*` that is not null: the identity of the pointed-to
object.  The null pointer is `none : Option ModuleContextPtr`. -/
abbrev ModuleContextPtr := Nat

/-- A `ModuleActivator*` that is not null. -/
abbrev ModuleActivatorPtr := Nat

/-- A `ModuleActivatorHook` (`ModuleActivator*(*)(void)`) that is not null. -/
abbrev ModuleActivatorHook := Nat

/-- The fields of `ModuleInfo` that `usModule.cpp` reads. -/
structure ModuleInfo where
  name : String
  location : String
  id : Int
deriving DecidableEq, Repr

/-- The fields of `ModulePrivate` that the lifecycle methods read and write. -/
structure ModulePrivate where
  info : ModuleInfo
  moduleContext : Option ModuleContextPtr
  moduleActivator : Option ModuleActivatorPtr
deriving DecidableEq, Repr

/-- One call made by the lifecycle methods into code outside `usModule.cpp`.
`ModuleChanged type m` is `listeners.ModuleChanged(ModuleEvent(type, this))`;
`m` is the state of `*this` at the moment of the call, which is what a
listener reaches through the event's module pointer.  `FrameworkEvent` is the
dispatch of a framework event; no method of `usModule.cpp` performs it. -/
inductive Action where
  | US_WARN (msg : String)
  | US_ERROR (msg : String)
  | newModuleContext (ctx : ModuleContextPtr)
  | deleteModuleContext (ctx : ModuleContextPtr)
  | RemoveModuleResources
  | GetSymbol (info : ModuleInfo) (symbol : String)
  | ModuleChanged (type : ModuleEventType) (m : ModulePrivate)
  | activatorHook (hook : ModuleActivatorHook)
  | Load (activator : ModuleActivatorPtr) (ctx : ModuleContextPtr)
  | Unload (activator : ModuleActivatorPtr) (ctx : ModuleContextPtr)
  | AutoLoadModules (info : ModuleInfo)
  | FrameworkEvent (type : FrameworkEventType)
deriving DecidableEq, Repr

/-- How a call into user code ends. -/
inductive Call (α : Type) where
  | returns (a : α)
  | throws (e : Exn)
deriving DecidableEq, Repr

/-- The code outside `usModule.cpp` that `Start` and `Stop` call and whose
outcome decides their control flow.

* `GetSymbol` is `ModuleUtils::GetSymbol`; `none` is a null result.
* `activatorHook` is the call through the resolved function pointer; it may
  throw, and the pointer it returns may be null (`none`).
* `Load`, `Unload` are the virtual calls on the activator object.
* `US_ENABLE_AUTOLOADING_SUPPORT` is the build-time switch of
  `usCoreConfig.h`, `IsAutoLoadingEnabled` is
  `ModuleSettings::IsAutoLoadingEnabled()`, and `AutoLoadModules` is the
  autoload step, whose body is not part of `usModule.cpp`. -/
structure Env where
  GetSymbol : ModuleInfo → String → Option ModuleActivatorHook
  activatorHook : ModuleActivatorHook → Call (Option ModuleActivatorPtr)
  Load : ModuleActivatorPtr → ModuleContextPtr → Call Unit
  Unload : ModuleActivatorPtr → ModuleContextPtr → Call Unit
  US_ENABLE_AUTOLOADING_SUPPORT : Bool
  IsAutoLoadingEnabled : Bool
  AutoLoadModules : ModuleInfo → Call Unit

/-- An initialised module together with the part of the process its
lifecycle methods touch: `d` is `*Module::d`, `heap` counts the
`ModuleContext` objects constructed so far (the next `new` yields the object
numbered `heap`), and `trace` lists the outside calls made so far, oldest
first. -/
structure World where
  d : ModulePrivate
  heap : Nat
  trace : List Action
deriving DecidableEq, Repr

/-- How a lifecycle method ends: it returns, an exception leaves it, or it
dereferences a null activator pointer (undefined behaviour). -/
inductive Result where
  | returned
  | threw (e : Exn)
  | undefined
deriving DecidableEq, Repr

/-- Record one outside call. -/
def World.emit (w : World) (a : Action) : World :=
  { w with trace := w.trace ++ [a] }

/-- `std::string::c_str()` as seen by a callee taking `const char*`: the
characters up to, and without, the first NUL. -/
def c_str (s : String) : String :=
  ⟨s.data.takeWhile (fun c => c != Char.ofNat 0)⟩

/-- The local `activator_func` of `Module::Start`:
`"_us_module_activator_instance_" + d->info.name`. -/
def activator_func (info : ModuleInfo) : String :=
  "_us_module_activator_instance_" ++ info.name

/-! ## The lifecycle methods -/

/-- `Module::IsLoaded`: `d->moduleContext != 0`. -/
def Module.IsLoaded (w : World) : Bool :=
  w.d.moduleContext != none

/-- `Module::GetModuleContext`: `d->moduleContext`. -/
def Module.GetModuleContext (w : World) : Option ModuleContextPtr :=
  w.d.moduleContext

/-- Modelled from the spec: `ServiceListeners::ModuleChanged`, whose body is
not part of `usModule.cpp`.  The spec's dispatcher delivers the event to the
listeners and never lets a listener exception escape, so the call returns; it
is recorded with the module as the listeners see it at that moment. -/
@[simp]
def ServiceListeners.ModuleChanged (w : World) (type : ModuleEventType) : World :=
  w.emit (Action.ModuleChanged type w.d)

/-- Modelled from the spec: `ModulePrivate::RemoveModuleResources`, whose body
is not part of `usModule.cpp`; the spec's `Uninit` "removes the module's
resources" as a step that completes.  The call is recorded. -/
@[simp]
def ModulePrivate.RemoveModuleResources (w : World) : World :=
  w.emit Action.RemoveModuleResources

/-- `Module::Uninit`: when the context is present, remove the module's
resources, delete the context and null the pointer, dispatch `UNLOADED`, then
null the activator pointer; otherwise do nothing. -/
def Module.Uninit (w : World) : World :=
  match w.d.moduleContext with
  | some ctx =>
    let w1 := ModulePrivate.RemoveModuleResources w
    let w2 := w1.emit (Action.deleteModuleContext ctx)
    let w3 : World := { w2 with d := { w2.d with moduleContext := none } }
    let w4 := ServiceListeners.ModuleChanged w3 ModuleEventType.UNLOADED
    { w4 with d := { w4.d with moduleActivator := none } }
  | none => w

/-- Lines 134-151 of `Module::Start`: with a hook, call it (logging and
re-throwing when it throws), store the activator it returns and call `Load`
on it; without a hook, nothing. -/
def Module.Start.activate (env : Env) (w : World) (ctx : ModuleContextPtr)
    (activatorHook : Option ModuleActivatorHook) : Result × World :=
  match activatorHook with
  | none => (Result.returned, w)
  | some hook =>
    let w1 := w.emit (Action.activatorHook hook)
    match env.activatorHook hook with
    | Call.throws e =>
      (Result.threw e,
        w1.emit (Action.US_ERROR
          ("Creating the module activator of " ++ w1.d.info.name ++ " failed")))
    | Call.returns a =>
      let w2 : World := { w1 with d := { w1.d with moduleActivator := a } }
      match a with
      | none => (Result.undefined, w2)
      | some activator =>
        let w3 := w2.emit (Action.Load activator ctx)
        match env.Load activator ctx with
        | Call.throws e => (Result.threw e, w3)
        | Call.returns _ => (Result.returned, w3)

/-- Lines 153-158 of `Module::Start`: the autoload step, compiled in under
`US_ENABLE_AUTOLOADING_SUPPORT` and run when autoloading is enabled. -/
def Module.Start.autoload (env : Env) (w : World) : Result × World :=
  if env.US_ENABLE_AUTOLOADING_SUPPORT && env.IsAutoLoadingEnabled then
    let w1 := w.emit (Action.AutoLoadModules w.d.info)
    match env.AutoLoadModules w.d.info with
    | Call.throws e => (Result.threw e, w1)
    | Call.returns _ => (Result.returned, w1)
  else
    (Result.returned, w)

/-- `Module::Start`. -/
def Module.Start (env : Env) (w : World) : Result × World :=
  match w.d.moduleContext with
  | some _ =>
    (Result.returned,
      w.emit (Action.US_WARN ("Module " ++ w.d.info.name ++ " already started.")))
  | none =>
    let ctx : ModuleContextPtr := w.heap
    let w1 : World :=
      ({ w with heap := w.heap + 1 }).emit (Action.newModuleContext ctx)
    let w2 : World := { w1 with d := { w1.d with moduleContext := some ctx } }
    let activatorHookSym := env.GetSymbol w2.d.info (c_str (activator_func w2.d.info))
    let w3 := w2.emit (Action.GetSymbol w2.d.info (c_str (activator_func w2.d.info)))
    let w4 := ServiceListeners.ModuleChanged w3 ModuleEventType.LOADING
    match Module.Start.activate env w4 ctx activatorHookSym with
    | (Result.returned, w5) =>
      match Module.Start.autoload env w5 with
      | (Result.returned, w6) =>
        (Result.returned, ServiceListeners.ModuleChanged w6 ModuleEventType.LOADED)
      | other => other
    | other => other

/-- `Module::Stop`. -/
def Module.Stop (env : Env) (w : World) : Result × World :=
  match w.d.moduleContext with
  | none =>
    (Result.returned,
      w.emit (Action.US_WARN ("Module " ++ w.d.info.name ++ " already stopped.")))
  | some ctx =>
    let w1 := ServiceListeners.ModuleChanged w ModuleEventType.UNLOADING
    match w1.d.moduleActivator with
    | some activator =>
      let w2 := w1.emit (Action.Unload activator ctx)
      match env.Unload activator ctx with
      | Call.throws e =>
        let w3 := w2.emit (Action.US_WARN
          ("Calling the module activator Unload() method of " ++ w2.d.info.name ++ " failed!"))
        (Result.threw e, Module.Uninit w3)
      | Call.returns _ => (Result.returned, Module.Uninit w2)
    | none => (Result.returned, Module.Uninit w1)

/-! ## Reading a trace -/

/-- The types of the module events dispatched in a trace, in order. -/
def moduleEvents (t : List Action) : List ModuleEventType :=
  t.filterMap (fun a =>
    match a with
    | Action.ModuleChanged type _ => some type
    | _ => none)

/-- The `Load` calls of a trace, in order, each with its arguments. -/
def loadCalls (t : List Action) : List (ModuleActivatorPtr × ModuleContextPtr) :=
  t.filterMap (fun a =>
    match a with
    | Action.Load activator ctx => some (activator, ctx)
    | _ => none)

/-- The `Unload` calls of a trace, in order, each with its arguments. -/
def unloadCalls (t : List Action) : List (ModuleActivatorPtr × ModuleContextPtr) :=
  t.filterMap (fun a =>
    match a with
    | Action.Unload activator ctx => some (activator, ctx)
    | _ => none)

/-- The activator hooks called in a trace, in order. -/
def hookCalls (t : List Action) : List ModuleActivatorHook :=
  t.filterMap (fun a =>
    match a with
    | Action.activatorHook hook => some hook
    | _ => none)

/-- The symbols asked of `GetSymbol` in a trace, in order. -/
def symbolsAsked (t : List Action) : List String :=
  t.filterMap (fun a =>
    match a with
    | Action.GetSymbol _ symbol => some symbol
    | _ => none)

/-- The framework events dispatched in a trace, in order. -/
def frameworkEvents (t : List Action) : List FrameworkEventType :=
  t.filterMap (fun a =>
    match a with
    | Action.FrameworkEvent type => some type
    | _ => none)

/-- The autoload step, when it is compiled in and enabled, returns
normally. -/
def Env.autoloadReturns (env : Env) (info : ModuleInfo) : Prop :=
  (env.US_ENABLE_AUTOLOADING_SUPPORT && env.IsAutoLoadingEnabled) = true →
    env.AutoLoadModules info = Call.returns ()

/-- The calls `Start` makes during the autoload step. -/
def autoloadActions (env : Env) (info : ModuleInfo) : List Action :=
  if env.US_ENABLE_AUTOLOADING_SUPPORT && env.IsAutoLoadingEnabled then
    [Action.AutoLoadModules info]
  else []

/-- The calls `Stop` makes to the activator when nothing throws: `Unload` on
the activator, if there is one. -/
def unloadActions (w : World) (ctx : ModuleContextPtr) : List Action :=
  match w.d.moduleActivator with
  | some activator => [Action.Unload activator ctx]
  | none => []

/-- A state is consistent when a module without a context has no activator
either.  A freshly initialised module is consistent, and `Uninit`, `Start`
and `Stop` keep it so. -/
def World.consistent (w : World) : Prop :=
  w.d.moduleContext = none → w.d.moduleActivator = none

/-! ## Sample inputs -/

/-- A module description used for the concrete instances below. -/
def sampleInfo : ModuleInfo :=
  { name := "TestModuleA", location := "/usr/lib/libTestModuleA.so", id := 1 }

/-- A freshly initialised module: no context, no activator, nothing called. -/
def installedWorld : World :=
  { d := { info := sampleInfo, moduleContext := none, moduleActivator := none },
    heap := 0, trace := [] }

/-- A started module with context 0 and activator 3. -/
def activeWorld : World :=
  { d := { info := sampleInfo, moduleContext := some 0, moduleActivator := some 3 },
    heap := 1, trace := [] }

/-- A library that exports the activator symbol of `TestModuleA`; hook,
`Load` and `Unload` all return; autoloading is compiled in and enabled. -/
def goodEnv : Env :=
  { GetSymbol := fun _ symbol =>
      if symbol = "_us_module_activator_instance_TestModuleA" then some 7 else none,
    activatorHook := fun _ => Call.returns (some 3),
    Load := fun _ _ => Call.returns (),
    Unload := fun _ _ => Call.returns (),
    US_ENABLE_AUTOLOADING_SUPPORT := true,
    IsAutoLoadingEnabled := true,
    AutoLoadModules := fun _ => Call.returns () }

/-- As `goodEnv`, but the activator's `Load` throws. -/
def loadThrowsEnv : Env :=
  { goodEnv with Load := fun _ _ => Call.throws { what := "Load failed" } }

/-- As `goodEnv`, but the activator hook throws. -/
def hookThrowsEnv : Env :=
  { goodEnv with activatorHook := fun _ => Call.throws { what := "no activator" } }

/-- As `goodEnv`, but the activator's `Unload` throws. -/
def unloadThrowsEnv : Env :=
  { goodEnv with Unload := fun _ _ => Call.throws { what := "Unload failed" } }

/-- A module whose name has an embedded NUL character: the three characters
a, NUL, b. -/
def nulInfo : ModuleInfo :=
  { name := String.mk [Char.ofNat 97, Char.ofNat 0, Char.ofNat 98],
    location := "/usr/lib/libab.so", id := 2 }

/-- A freshly initialised module described by `nulInfo`. -/
def nulWorld : World :=
  { d := { info := nulInfo, moduleContext := none, moduleActivator := none },
    heap := 0, trace := [] }

/-- A library that exports no activator symbol. -/
def noSymbolEnv : Env :=
  { goodEnv with GetSymbol := fun _ _ => none }

/-! ## Initialisation and manifest keys -/

/-- The `Module` object itself: its one data member is the pointer `d`, null
(`none`) after the constructor `Module::Module()`. -/
structure Module where
  d : Option ModulePrivate
deriving DecidableEq, Repr

/-- `Module::Module()`: `d(0)`. -/
def Module.constructed : Module :=
  { d := none }

/-- What one call of `Module::Init` leaves behind: how the call ended, the
module afterwards, and the object handed to `delete mp` (`none` when `mp` is
null and the `delete` does nothing, or when it is not reached). -/
structure InitEffect where
  result : Result
  module : Module
  deleted : Option ModulePrivate
deriving DecidableEq, Repr

/-- `Module::Init`.  The constructor `ModulePrivate(Module*, CoreModuleContext*,
ModuleInfo*)` is not part of `usModule.cpp`; it is the parameter `construct`,
which returns the new private data or throws.  When it returns, `std::swap`
puts the new object into `d` and the old value of `d` is deleted; when it
throws, the `new` expression throws and `d` is untouched. -/
def Module.Init (construct : Nat → ModuleInfo → Call ModulePrivate)
    (m : Module) (coreCtx : Nat) (info : ModuleInfo) : InitEffect :=
  match construct coreCtx info with
  | Call.throws e => { result := Result.threw e, module := m, deleted := none }
  | Call.returns mp => { result := Result.returned, module := { d := some mp }, deleted := m.d }

/-- `Module::PROP_ID`. -/
def Module.PROP_ID : String := "module.id"

/-- `Module::PROP_NAME`. -/
def Module.PROP_NAME : String := "module.name"

/-- `Module::PROP_LOCATION`. -/
def Module.PROP_LOCATION : String := "module.location"

/-- `Module::PROP_VERSION`. -/
def Module.PROP_VERSION : String := "module.version"

/-- `Module::PROP_VENDOR`. -/
def Module.PROP_VENDOR : String := "module.vendor"

/-- `Module::PROP_DESCRIPTION`. -/
def Module.PROP_DESCRIPTION : String := "module.description"

/-- `Module::PROP_AUTOLOAD_DIR`. -/
def Module.PROP_AUTOLOAD_DIR : String := "module.autoload_dir"

/-- A `ModulePrivate` constructor that always succeeds: the new object holds
the given description and has neither context nor activator. -/
def plainConstruct (_coreCtx : Nat) (info : ModuleInfo) : Call ModulePrivate :=
  Call.returns { info := info, moduleContext := none, moduleActivator := none }

/-- As `goodEnv`, but the autoload step throws. -/
def autoloadThrowsEnv : Env :=
  { goodEnv with AutoLoadModules := fun _ => Call.throws { what := "autoload failed" } }

/-- As `noSymbolEnv`, but the autoload step throws. -/
def noSymbolAutoloadThrowsEnv : Env :=
  { noSymbolEnv with AutoLoadModules := fun _ => Call.throws { what := "autoload failed" } }

end us

namespace cppmicroservices

/-! ## Listener table and framework-event dispatch

The implementation of the listener table, of the dispatcher and of the
framework's `Start`/`Stop` is not among the sources; only
`FrameworkListenerTest.cpp` is.  The definitions of this section are written
from the specification (sections 3, 4.3, 4.4, 5 and 8).  They agree with the
assertions of sections 2 to 6 of `testMultipleListeners`.  In section 7 the
test expects a member function bound to an object to get a new token on every
addition; section 4.3 gives such a listener the identity `(obj, memfn)` and
merges on every identity, and the definitions follow section 4.3. -/

/-- Modelled from the spec: the kinds of callable a listener is registered as
(section 4.3, "Identity rule"); the listener implementation is missing.  A
free function pointer, a member function bound to an object pointer, a named
functor object, a bound callable wrapping another callable, and a lambda,
closure or other callable without a name (`code` tells two of them apart, it
is not an identity). -/
inductive Callable where
  | freeFunction (fn : Nat)
  | memberFunction (obj : Nat) (memfn : Nat)
  | functor (obj : Nat)
  | bound (wrapped : Callable)
  | closure (code : Nat)
deriving DecidableEq, Repr

/-- Modelled from the spec: the identity column of the table of section 4.3;
the listener implementation is missing.  The address of a function, the pair
of object address and member function address, the address of a functor
object. -/
inductive Identity where
  | function (addr : Nat)
  | member (obj : Nat) (memfn : Nat)
  | functor (addr : Nat)
deriving DecidableEq, Repr

/-- Modelled from the spec: the identity a callable yields (section 4.3); the
listener implementation is missing.  A bound callable forwards to the callable
it wraps; a lambda or closure yields none. -/
def Callable.identity : Callable → Option Identity
  | Callable.freeFunction fn => some (Identity.function fn)
  | Callable.memberFunction obj memfn => some (Identity.member obj memfn)
  | Callable.functor obj => some (Identity.functor obj)
  | Callable.bound wrapped => wrapped.identity
  | Callable.closure _ => none

/-- Modelled from the spec: when two entries "share the identity" (section 4.3,
removal rule (c)); the listener implementation is missing.  Functions and
functor objects share it when their addresses are equal; two member-function
listeners share it when they are bound to the same object pointer, whatever
the member function, which is the example rule (c) gives and what section 4 of
`testMultipleListeners` asserts. -/
def Identity.shares : Identity → Identity → Bool
  | Identity.function a, Identity.function b => a == b
  | Identity.functor a, Identity.functor b => a == b
  | Identity.member obj _, Identity.member obj2 _ => obj == obj2
  | _, _ => false

/-- Modelled from the spec: `ListenerEntry`, the tuple
`(token, identity, callable, owner_module)` of section 3; the listener
implementation is missing.  The spec calls the token a monotone 64-bit value
unique within its compartment; it is a natural number here, so a counter never
comes back to a value it has issued. -/
structure ListenerEntry where
  token : Nat
  identity : Option Identity
  callable : Callable
  owner_module : Nat
deriving DecidableEq, Repr

/-- An entry carries the identity `i` when it has an identity that shares
`i`. -/
def ListenerEntry.carries (e : ListenerEntry) (i : Identity) : Bool :=
  match e.identity with
  | some j => j.shares i
  | none => false

/-- Modelled from the spec: one compartment of the listener table (section
4.3); the listener implementation is missing.  The entries in insertion order
and the next token to issue. -/
structure Compartment where
  entries : List ListenerEntry
  nextToken : Nat
deriving DecidableEq, Repr

/-- An entry holds the identity `i` when `i` is its identity: it is "an entry
with the same identity" in the words of the addition rule (section 4.3). -/
def ListenerEntry.holds (e : ListenerEntry) (i : Identity) : Bool :=
  decide (e.identity = some i)

/-- The entry an added callable is merged with: the first entry with the same
identity as the callable, when the callable yields an identity. -/
def Compartment.existing (t : Compartment) (c : Callable) : Option ListenerEntry :=
  match c.identity with
  | some i => t.entries.find? (fun e => e.holds i)
  | none => none

/-- Modelled from the spec: `AddXListener(callable) → token` on one compartment
(section 4.3); the listener implementation is missing.  "If the callable
yields an identity and an entry with the same identity already exists in the
same compartment, return that entry's token and do not add a duplicate.
Otherwise append a new entry with a fresh token and return it." -/
def Compartment.AddListener (t : Compartment) (owner : Nat) (c : Callable) :
    Nat × Compartment :=
  match t.existing c with
  | some e => (e.token, t)
  | none =>
    (t.nextToken,
      { entries := t.entries ++
          [{ token := t.nextToken, identity := c.identity, callable := c,
             owner_module := owner }],
        nextToken := t.nextToken + 1 })

/-- Modelled from the spec: `RemoveXListener(callable)` on one compartment
(section 4.3); the listener implementation is missing.  "Removes by identity.
Returns true on removal.  Returns false if (a) no entry matches, (b) the
callable has no identity, or (c) multiple entries share the identity." -/
def Compartment.RemoveListener (t : Compartment) (c : Callable) : Bool × Compartment :=
  match c.identity with
  | none => (false, t)
  | some i =>
    if (t.entries.filter (fun e => e.carries i)).length = 1 then
      (true, { t with entries := t.entries.filter (fun e => !e.carries i) })
    else
      (false, t)

/-- Modelled from the spec: `RemoveXListener(token)` on one compartment
(section 4.3); the listener implementation is missing.  "Removes by token;
returns true iff a listener was removed." -/
def Compartment.RemoveListenerByToken (t : Compartment) (token : Nat) :
    Bool × Compartment :=
  if t.entries.any (fun e => e.token == token) then
    (true, { t with entries := t.entries.filter (fun e => e.token != token) })
  else
    (false, t)

/-- Modelled from the spec: the three kinds of listener (section 4.3), the `X`
of `AddXListener`; the listener implementation is missing. -/
inductive ListenerKind where
  | module
  | service
  | framework
deriving DecidableEq, Repr

/-- Modelled from the spec: the listener table, "three kinds (module, service,
framework) in separate compartments" (section 4.3); the listener
implementation is missing. -/
structure ListenerTable where
  moduleListeners : Compartment
  serviceListeners : Compartment
  frameworkListeners : Compartment
deriving DecidableEq, Repr

/-- The compartment of one kind. -/
def ListenerTable.compartment (t : ListenerTable) : ListenerKind → Compartment
  | ListenerKind.module => t.moduleListeners
  | ListenerKind.service => t.serviceListeners
  | ListenerKind.framework => t.frameworkListeners

/-- The table with the compartment of one kind replaced. -/
def ListenerTable.update (t : ListenerTable) (X : ListenerKind) (c : Compartment) :
    ListenerTable :=
  match X with
  | ListenerKind.module => { t with moduleListeners := c }
  | ListenerKind.service => { t with serviceListeners := c }
  | ListenerKind.framework => { t with frameworkListeners := c }

/-- Modelled from the spec: `AddXListener(callable) → token` (section 4.3) on
the compartment of kind `X`; the listener implementation is missing. -/
def ListenerTable.AddXListener (t : ListenerTable) (X : ListenerKind) (owner : Nat)
    (c : Callable) : Nat × ListenerTable :=
  (((t.compartment X).AddListener owner c).1,
    t.update X ((t.compartment X).AddListener owner c).2)

/-- Modelled from the spec: `RemoveXListener(callable)` (section 4.3) on the
compartment of kind `X`; the listener implementation is missing. -/
def ListenerTable.RemoveXListener (t : ListenerTable) (X : ListenerKind)
    (c : Callable) : Bool × ListenerTable :=
  (((t.compartment X).RemoveListener c).1,
    t.update X ((t.compartment X).RemoveListener c).2)

/-- Modelled from the spec: `RemoveXListener(token)` (section 4.3) on the
compartment of kind `X`; the listener implementation is missing. -/
def ListenerTable.RemoveXListenerByToken (t : ListenerTable) (X : ListenerKind)
    (token : Nat) : Bool × ListenerTable :=
  (((t.compartment X).RemoveListenerByToken token).1,
    t.update X ((t.compartment X).RemoveListenerByToken token).2)

/-- One call on the listener table. -/
inductive ListenerOp where
  | add (X : ListenerKind) (owner : Nat) (c : Callable)
  | remove (X : ListenerKind) (c : Callable)
  | removeToken (X : ListenerKind) (token : Nat)
deriving DecidableEq, Repr

/-- The table after one call. -/
def ListenerTable.apply (t : ListenerTable) : ListenerOp → ListenerTable
  | ListenerOp.add X owner c => (t.AddXListener X owner c).2
  | ListenerOp.remove X c => (t.RemoveXListener X c).2
  | ListenerOp.removeToken X token => (t.RemoveXListenerByToken X token).2

/-- The table after a sequence of calls. -/
def ListenerTable.run (t : ListenerTable) (ops : List ListenerOp) : ListenerTable :=
  ops.foldl ListenerTable.apply t

/-- The invariant of a compartment built by the operations above: every token
in use is below the next token, no token is used twice, and no identity is
held by two entries. -/
def Compartment.WF (t : Compartment) : Prop :=
  (∀ e ∈ t.entries, e.token < t.nextToken) ∧
  (t.entries.map ListenerEntry.token).Nodup ∧
  (∀ e ∈ t.entries,
    match e.identity with
    | some i => (t.entries.filter (fun x => x.holds i)).length ≤ 1
    | none => True)

/-- The token `k` is retired in a compartment: it has been issued and no entry
holds it, and every token in use has been issued. -/
def Compartment.retired (t : Compartment) (k : Nat) : Prop :=
  (∀ e ∈ t.entries, e.token < t.nextToken ∧ e.token ≠ k) ∧ k < t.nextToken

/-- The empty compartment. -/
def Compartment.empty : Compartment :=
  { entries := [], nextToken := 0 }

/-- The empty listener table. -/
def ListenerTable.empty : ListenerTable :=
  { moduleListeners := Compartment.empty,
    serviceListeners := Compartment.empty,
    frameworkListeners := Compartment.empty }

/-- Modelled from the spec: `FrameworkEvent{type, module, message, error}`
(section 3); its declaration is missing. -/
structure FrameworkEvent where
  type : us.FrameworkEventType
  module : Nat
  message : String
  error : Option us.Exn
deriving DecidableEq, Repr

/-- What a listener does when it is called with a framework event: it returns
or it throws. -/
abbrev ListenerBehaviour := Callable → FrameworkEvent → us.Call Unit

/-- One call of a framework listener by the dispatcher. -/
structure Invocation where
  token : Nat
  callable : Callable
  event : FrameworkEvent
deriving DecidableEq, Repr

/-- Modelled from the spec: the framework state the claims need (sections 4.4,
5 and 9); the framework implementation is missing.  The listener table,
whether the framework is started, the calls of framework listeners made so far
(oldest first) and the lines written to the configured log sink. -/
structure Framework where
  listeners : ListenerTable
  active : Bool
  invocations : List Invocation
  sink : List String
deriving DecidableEq, Repr

/-- Modelled from the spec: the line the dispatcher writes when a framework
listener throws (section 4.4); the dispatcher is missing.  The spec fixes its
first words; the message of the exception follows them here. -/
def frameworkListenerThrew (e : us.Exn) : String :=
  "A Framework Listener threw an exception:" ++ " " ++ e.what

/-- Modelled from the spec: the call of one framework listener during
framework-event dispatch (section 4.4, step 4); the dispatcher is missing.
"Catch and write a single log line to the configured sink with the prefix
`A Framework Listener threw an exception:`.  Do not re-enter framework-event
dispatch." -/
def Framework.invoke (behaviour : ListenerBehaviour) (evt : FrameworkEvent)
    (fw : Framework) (e : ListenerEntry) : Framework :=
  match behaviour e.callable evt with
  | us.Call.returns _ =>
    { fw with invocations := fw.invocations ++
        [{ token := e.token, callable := e.callable, event := evt }] }
  | us.Call.throws x =>
    { fw with
      invocations := fw.invocations ++
        [{ token := e.token, callable := e.callable, event := evt }],
      sink := fw.sink ++ [frameworkListenerThrew x] }

/-- Modelled from the spec: framework-event dispatch (section 4.4); the
dispatcher is missing.  Take a snapshot of the framework listeners and call
each one in insertion order on the calling thread. -/
def Framework.DispatchFrameworkEvent (behaviour : ListenerBehaviour) (fw : Framework)
    (evt : FrameworkEvent) : Framework :=
  fw.listeners.frameworkListeners.entries.foldl (Framework.invoke behaviour evt) fw

/-- The call of an entry's listener with an event. -/
def ListenerEntry.invokedWith (evt : FrameworkEvent) (e : ListenerEntry) : Invocation :=
  { token := e.token, callable := e.callable, event := evt }

/-- The log lines for the listeners of a list of entries that throw on an
event, in the order of the entries. -/
def thrownLines (behaviour : ListenerBehaviour) (evt : FrameworkEvent)
    (l : List ListenerEntry) : List String :=
  l.filterMap (fun e =>
    match behaviour e.callable evt with
    | us.Call.throws x => some (frameworkListenerThrew x)
    | us.Call.returns _ => none)

/-- Modelled from the spec: the event a framework sends when it has started
(scenario 1 of section 8: `STARTED`, the framework, "Framework Started"); the
framework implementation is missing. -/
def frameworkStarted : FrameworkEvent :=
  { type := us.FrameworkEventType.STARTED, module := 0, message := "Framework Started",
    error := none }

/-- Modelled from the spec: `AddFrameworkListener(callable)` through the
framework's own context, as `f.GetBundleContext().AddFrameworkListener(...)` in
the test; the framework implementation is missing.  The owner is the
framework, module 0 (section 3). -/
def Framework.AddFrameworkListener (fw : Framework) (c : Callable) : Nat × Framework :=
  ((fw.listeners.AddXListener ListenerKind.framework 0 c).1,
    { fw with listeners := (fw.listeners.AddXListener ListenerKind.framework 0 c).2 })

/-- Modelled from the spec: the framework's `Start` (scenario 1 of section 8
and the test's note that the `STARTED` event is only sent once per start); the
framework implementation is missing.  A framework that is not started becomes
active and dispatches `STARTED`; a started one is left alone. -/
def Framework.Start (behaviour : ListenerBehaviour) (fw : Framework) : Framework :=
  if fw.active then fw
  else Framework.DispatchFrameworkEvent behaviour { fw with active := true } frameworkStarted

/-- Modelled from the spec: the framework's `Stop` (section 5, "Stop must
release all listeners owned by the framework context", and invariant 8 of
section 8, which covers every listener added before `Stop`); the framework
implementation is missing.  `Stop` is synchronous: the framework is no longer
active and every compartment is emptied; the token counters keep their
values. -/
def Framework.Stop (fw : Framework) : Framework :=
  { fw with
    active := false,
    listeners :=
      { moduleListeners := { fw.listeners.moduleListeners with entries := [] },
        serviceListeners := { fw.listeners.serviceListeners with entries := [] },
        frameworkListeners := { fw.listeners.frameworkListeners with entries := [] } } }

/-- Modelled from the spec: `WaitForStop(timeout)` (section 5); the framework
implementation is missing.  It blocks until the stop has completed and hands
the caller a framework event: `Stop` being synchronous, the stop has completed
when the call is made, so the event is `STOPPED` and the framework is as it
was. -/
def Framework.WaitForStop (fw : Framework) (_timeout : Nat) : FrameworkEvent × Framework :=
  ({ type := us.FrameworkEventType.STOPPED, module := 0, message := "", error := none }, fw)

/-- The events a listener token has been called with, oldest first. -/
def Framework.received (fw : Framework) (token : Nat) : List FrameworkEvent :=
  (fw.invocations.filter (fun i => i.token == token)).map Invocation.event

/-- The framework after dispatching a sequence of framework events. -/
def Framework.dispatchAll (behaviour : ListenerBehaviour) (fw : Framework)
    (evts : List FrameworkEvent) : Framework :=
  evts.foldl (Framework.DispatchFrameworkEvent behaviour) fw

namespace Test

/-! ### The callables and scenarios of `FrameworkListenerTest.cpp` -/

/-- `callback_function_1`. -/
def callback_function_1 : Callable := Callable.freeFunction 1

/-- `callback_function_2`. -/
def callback_function_2 : Callable := Callable.freeFunction 2

/-- `std::bind(callback_function_3, 42, std::placeholders::_1)`. -/
def bind1 : Callable := Callable.bound (Callable.freeFunction 3)

/-- The functor object `cb`. -/
def cb : Callable := Callable.functor 20

/-- The temporary `CallbackFunctor()`, which has no address of its own. -/
def temporaryFunctor : Callable := Callable.closure 4

/-- `(&l1, &Listener::memfn1)`. -/
def l1_memfn1 : Callable := Callable.memberFunction 11 1

/-- `(&l1, &Listener::memfn2)`. -/
def l1_memfn2 : Callable := Callable.memberFunction 11 2

/-- `(&l2, &Listener::memfn1)`. -/
def l2_memfn1 : Callable := Callable.memberFunction 12 1

/-- `(&l2, &Listener::memfn2)`. -/
def l2_memfn2 : Callable := Callable.memberFunction 12 2

/-- The lambda `lambda1`. -/
def lambda1 : Callable := Callable.closure 1

/-- The lambda `lambda2`. -/
def lambda2 : Callable := Callable.closure 2

/-- The lambda `lambda3`. -/
def lambda3 : Callable := Callable.closure 3

/-- `(&l, &TestFrameworkListener::throwOnFrameworkEvent)`. -/
def throwOnFrameworkEvent : Callable := Callable.memberFunction 30 9

/-- The listeners of the test: `throwOnFrameworkEvent` throws "whoopsie!",
every other one returns. -/
def behaviour : ListenerBehaviour := fun c _ =>
  if c = throwOnFrameworkEvent then us.Call.throws { what := "whoopsie!" }
  else us.Call.returns ()

/-- A framework after `Init`: no listener, not started, nothing called, nothing
logged. -/
def initialised : Framework :=
  { listeners := ListenerTable.empty, active := false, invocations := [], sink := [] }

/-- The tokens returned by adding the callables in order to the framework
compartment of a table, and the table afterwards. -/
def addAll (t : ListenerTable) : List Callable → List Nat × ListenerTable
  | [] => ([], t)
  | c :: cs =>
    (((t.AddXListener ListenerKind.framework 0 c).1 ::
        (addAll (t.AddXListener ListenerKind.framework 0 c).2 cs).1),
      (addAll (t.AddXListener ListenerKind.framework 0 c).2 cs).2)

/-- The results of removing the callables in order by value, and the table
afterwards. -/
def removeAll (t : ListenerTable) : List Callable → List Bool × ListenerTable
  | [] => ([], t)
  | c :: cs =>
    (((t.RemoveXListener ListenerKind.framework c).1 ::
        (removeAll (t.RemoveXListener ListenerKind.framework c).2 cs).1),
      (removeAll (t.RemoveXListener ListenerKind.framework c).2 cs).2)

/-- The results of removing the tokens in order, and the table afterwards. -/
def removeTokens (t : ListenerTable) : List Nat → List Bool × ListenerTable
  | [] => ([], t)
  | k :: ks =>
    (((t.RemoveXListenerByToken ListenerKind.framework k).1 ::
        (removeTokens (t.RemoveXListenerByToken ListenerKind.framework k).2 ks).1),
      (removeTokens (t.RemoveXListenerByToken ListenerKind.framework k).2 ks).2)

/-- The nine listeners added in sections 1 to 3 of `testMultipleListeners`. -/
def nineListeners : List Callable :=
  [callback_function_1, callback_function_2, l1_memfn1, l2_memfn2, cb,
   lambda1, lambda2, temporaryFunctor, bind1]

/-- The four member-function listeners of sections 4 and 5. -/
def fourMembers : List Callable :=
  [l1_memfn1, l1_memfn2, l2_memfn1, l2_memfn2]

/-- The eight additions of section 6. -/
def section6 : List Callable :=
  [callback_function_1, callback_function_1, callback_function_2, callback_function_2,
   cb, cb, bind1, bind1]

/-- The ten additions of section 7. -/
def section7 : List Callable :=
  [lambda3, lambda3, l1_memfn1, l1_memfn1, l1_memfn2, l1_memfn2,
   l2_memfn1, l2_memfn1, l2_memfn2, l2_memfn2]

/-- The framework of section 7 after its ten additions and `f.Start()`. -/
def section7Started : Framework :=
  Framework.Start behaviour
    { initialised with listeners := (addAll ListenerTable.empty section7).2 }

end Test

end cppmicroservices

namespace us

/-! ## What listeners see -/

/-- The module events dispatched in a trace, in order, each with the module as
its listeners see it at that moment. -/
def moduleSnapshots (t : List Action) : List (ModuleEventType × ModulePrivate) :=
  t.filterMap (fun a =>
    match a with
    | Action.ModuleChanged type m => some (type, m)
    | _ => none)

/-- `Module::IsLoaded` as a listener evaluates it on the module of an event:
`d->moduleContext != 0`. -/
def seenLoaded (m : ModulePrivate) : Bool :=
  m.moduleContext != none

end us

namespace ZipInfo

/-! ## The zip listing tool (`tools/rc/ZipInfo.cpp`) -/

/-- The enumeration `EntryInfo::EntryType`. -/
inductive EntryInfo.EntryType where
  | FILE
  | DIRECTORY
deriving DecidableEq, Repr

/-- An entry of the zip archive.  The sizes are `mz_uint64` and the checksum is
`mz_uint32`; the tool copies and prints them and does no arithmetic on them. -/
structure EntryInfo where
  name : String
  type : EntryInfo.EntryType
  compressedSize : Nat
  uncompressedSize : Nat
  crc32 : Nat
deriving DecidableEq, Repr

/-- The fields of miniz's `mz_zip_archive_file_stat` that the tool reads. -/
structure mz_zip_archive_file_stat where
  m_filename : String
  m_comp_size : Nat
  m_uncomp_size : Nat
  m_crc32 : Nat
deriving DecidableEq, Repr

/-- An archive opened by miniz, as the tool queries it:
`mz_zip_reader_get_num_files`, `mz_zip_reader_file_stat` and
`mz_zip_reader_is_file_a_directory` at an index. -/
structure mz_zip_archive where
  mz_zip_reader_get_num_files : Nat
  mz_zip_reader_file_stat : Nat → mz_zip_archive_file_stat
  mz_zip_reader_is_file_a_directory : Nat → Bool

/-- The miniz library with the file system behind it, which is not part of
`ZipInfo.cpp`: `mz_zip_reader_init_file` at a path either fails (`none`) or
gives the opened archive. -/
structure Miniz where
  mz_zip_reader_init_file : String → Option mz_zip_archive

/-- What a run of the tool leaves behind: the text written to `std::cout`, the
text written to `std::cerr`, and the exit status. -/
structure Output where
  stdout : String
  stderr : String
  status : Int
deriving DecidableEq, Repr

/-- `EXIT_SUCCESS` of `<cstdlib>`. -/
def EXIT_SUCCESS : Int := 0

/-- `EXIT_FAILURE` of `<cstdlib>`. -/
def EXIT_FAILURE : Int := 1

/-- What `std::endl` writes. -/
def endl : String := "\n"

/-- `std::to_string` on an unsigned integer: its decimal digits. -/
def std.to_string (n : Nat) : String :=
  toString n

/-- `readZipFile`: the entries of the archive at `filename` in index order, or
the `std::runtime_error` (its message) when the archive cannot be opened. -/
def readZipFile (lib : Miniz) (filename : String) : Except String (List EntryInfo) :=
  match lib.mz_zip_reader_init_file filename with
  | none => Except.error ("Could not read zip archive file " ++ filename)
  | some ziparchive =>
    let numindices := ziparchive.mz_zip_reader_get_num_files
    Except.ok ((List.range numindices).map (fun index =>
      let filestat := ziparchive.mz_zip_reader_file_stat index
      { name := filestat.m_filename,
        type := if ziparchive.mz_zip_reader_is_file_a_directory index
          then EntryInfo.EntryType.DIRECTORY else EntryInfo.EntryType.FILE,
        compressedSize := filestat.m_comp_size,
        uncompressedSize := filestat.m_uncomp_size,
        crc32 := filestat.m_crc32 }))

/-- The lambda `file_or_dir` of `getStrRepEntries`. -/
def getStrRepEntries.file_or_dir (type : EntryInfo.EntryType) : String :=
  if type = EntryInfo.EntryType.FILE then "File" else "Directory"

/-- The body of the loop of `getStrRepEntries`: its three `retStr +=`
statements for one entry. -/
def getStrRepEntries.step (retStr : String) (entry : EntryInfo) : String :=
  let retStr := retStr ++ (getStrRepEntries.file_or_dir entry.type ++ ","
    ++ std.to_string entry.compressedSize ++ ",")
  let retStr := retStr ++ (std.to_string entry.uncompressedSize ++ ","
    ++ std.to_string entry.crc32 ++ ",")
  retStr ++ (entry.name ++ ",")

/-- `getStrRepEntries`: the loop over the entries, starting from the empty
string. -/
def getStrRepEntries (entries : List EntryInfo) : String :=
  entries.foldl getStrRepEntries.step ""

/-- `outputEntries`: what it writes to `std::cout`. -/
def outputEntries (entries : List EntryInfo) : String :=
  getStrRepEntries entries

/-- The lambda `print_usage_and_exit` of `main`: the usage text on `std::cout`
and `exit(EXIT_FAILURE)`. -/
def main.print_usage_and_exit (argv0 : String) : Output :=
  { stdout :=
      "Simple listing of the files inside a zip archive" ++ endl
      ++ "Usage: " ++ argv0 ++ " ZIP_PATH " ++ "COMPARE_STRING " ++ endl
      ++ "ZIP_PATH: The path of the zip file." ++ endl
      ++ "COMPARE_STRING (optional): A string separated by double quotes "
      ++ "which is compared to the stdout generated if the program was invoked "
      ++ "with just the first two arguments. " ++ endl
      ++ "This facilitates testing." ++ endl
      ++ endl
      ++ "Example usage:" ++ endl
      ++ "1. " ++ argv0 ++ " Example.zip" ++ endl
      ++ "This example lists the following values of every entry inside the zip "
      ++ "in a CSV-format (One entry per line)." ++ endl
      ++ "FileOrDir, compressed_size, uncompressed_size, crc32, name" ++ endl
      ++ endl
      ++ "2. " ++ argv0 ++ " Example.zip \"File,79,102,3826964650,manifest.json\"" ++ endl
      ++ "In this example, the output is PASS if the CSV values agree with the zip contents, "
      ++ "Otherwise the output is FAIL.",
    stderr := "",
    status := EXIT_FAILURE }

/-- What the compare mode of `main` writes to `std::cout`.  In
`(testStr == refStr) ? std::cout << "PASS" : std::cout << "FAIL" << std::endl`
the `<<` binds tighter than `?:`, so the line break belongs to the `FAIL`
branch only. -/
def main.compare (testStr refStr : String) : String :=
  (if testStr == refStr then "PASS" else "FAIL" ++ endl)
    ++ (refStr ++ endl) ++ (testStr ++ endl)

/-- `main` of the tool on the argument vector `argv` (`argc` is its length; in
a run of the program `argv` holds at least the program name). -/
def main (lib : Miniz) (argv : List String) : Output :=
  let argc := argv.length
  if argc != 2 && argc != 3 then
    main.print_usage_and_exit (argv.getD 0 "")
  else
    match readZipFile lib (argv.getD 1 "") with
    | Except.ok entries =>
      if argc == 3 then
        { stdout := main.compare (argv.getD 2 "") (getStrRepEntries entries),
          stderr := "",
          status := EXIT_SUCCESS }
      else
        { stdout := outputEntries entries, stderr := "", status := EXIT_SUCCESS }
    | Except.error _ =>
      { stdout := "",
        stderr := "Error reading the zip archive: " ++ argv.getD 1 "" ++ endl,
        status := EXIT_FAILURE }

/-! ### Sample archive -/

/-- An archive whose only entry is the file `manifest.json` with compressed
size 79, uncompressed size 102 and crc32 3826964650. -/
def manifestArchive : mz_zip_archive :=
  { mz_zip_reader_get_num_files := 1,
    mz_zip_reader_file_stat := fun _ =>
      { m_filename := "manifest.json", m_comp_size := 79, m_uncomp_size := 102,
        m_crc32 := 3826964650 },
    mz_zip_reader_is_file_a_directory := fun _ => false }

/-- A file system on which `Example.zip` is that archive and no other path is a
readable zip file. -/
def exampleLib : Miniz :=
  { mz_zip_reader_init_file := fun filename =>
      if filename = "Example.zip" then some manifestArchive else none }

/-- The compare string of the second example of the usage text. -/
def documentedCompareString : String :=
  "File,79,102,3826964650,manifest.json"

end ZipInfo

namespace us

end us

namespace cppmicroservices

/-! ## Function traits (`FunctionTraits.h`)

The traits are computed by the compiler on types.  The values below stand for
the types themselves, not for a way of writing them: the qualifiers are
fields, and the type of a parameter inside a function type has no `const` or
`volatile` of its own, so that `void (const int)` and `void (int)`, or
`const T&` and `T const&`, are one value. -/

/-- An object type without the `const` or `volatile` it may be qualified with.

* `named n` is a type that is neither a pointer to an object nor a reference
  (a fundamental type, a class, a union, an enumeration, a pointer to
  function), under a name that is the same for every alias and every way of
  writing it;
* `pointer T c v` is the pointer to `T`, the pointee being qualified `const`
  when `c` and `volatile` when `v`. -/
inductive ObjectType where
  | named (name : String)
  | pointer (pointee : ObjectType) (pointeeConst pointeeVolatile : Bool)
deriving DecidableEq, Repr

/-- The type a declaration gives to a result or to a parameter: an object type
qualified `const` and `volatile` or not, or a reference to one. -/
inductive DeclaredType where
  | object (T : ObjectType) (isConst isVolatile : Bool)
  | lvalueReference (T : ObjectType) (isConst isVolatile : Bool)
  | rvalueReference (T : ObjectType) (isConst isVolatile : Bool)
deriving DecidableEq, Repr

/-- The type of a parameter inside a function type: the language deletes the
`const` and `volatile` of the parameter itself when it forms the function
type (and turns a parameter declared as an array or as a function into the
pointer, which is an object type here). -/
inductive ParameterType where
  | object (T : ObjectType)
  | lvalueReference (T : ObjectType) (isConst isVolatile : Bool)
  | rvalueReference (T : ObjectType) (isConst isVolatile : Bool)
deriving DecidableEq, Repr

/-- The type of a declared parameter inside the function type. -/
def DeclaredType.adjusted : DeclaredType → ParameterType
  | DeclaredType.object T _ _ => ParameterType.object T
  | DeclaredType.lvalueReference T c v => ParameterType.lvalueReference T c v
  | DeclaredType.rvalueReference T c v => ParameterType.rvalueReference T c v

/-- A function signature `R (Args...)`: the function type with result type `R`
and parameter types `Args`, without qualifier of its own. -/
structure Signature where
  R : DeclaredType
  Args : List ParameterType
deriving DecidableEq, Repr

/-- The signature of a function declared with result `R` and parameters
`Args`. -/
def functionType (R : DeclaredType) (Args : List DeclaredType) : Signature :=
  { R := R, Args := Args.map DeclaredType.adjusted }

/-- The reference qualifier of a member function. -/
inductive RefQualifier where
  | unqualified
  | lvalue
  | rvalue
deriving DecidableEq, Repr

/-- The type of a non-static member function: a signature with the `const`,
`volatile` and reference qualifiers that follow the parameter list. -/
structure MemberFunctionType where
  signature : Signature
  isConst : Bool
  isVolatile : Bool
  ref : RefQualifier
deriving DecidableEq, Repr

/-- The member function type `R (Args...)` without qualifiers. -/
def MemberFunctionType.plain (S : Signature) : MemberFunctionType :=
  { signature := S, isConst := false, isVolatile := false, ref := RefQualifier.unqualified }

/-- The C++ types that the traits tell apart.

* `classType` is a `class` or `struct`, qualified `const` and `volatile` or
  not.  `callOperator F` tells whether the class has a public `operator()`
  of member function type `F` declared in the class itself (a specialisation
  of that type, when the `operator()` is a member template); an `operator()`
  that is inherited, private or protected gives false, because
  `&C::operator()` cannot be given the type `F` as a member of `C` then;
* `unionType` is a `union`, given the same way;
* `functionPointer S` is `R (*)(Args...)`, not qualified;
* `function S` is the function type `R (Args...)`;
* `memberFunctionPointer C F` is the pointer to a member function of type `F`
  of the class or union named `C`;
* `other` is any type of another form: a fundamental type, an enumeration, a
  reference, an array, a qualified pointer, a pointer to anything but a
  function. -/
inductive CppType where
  | classType (name : String) (isConst isVolatile : Bool)
      (callOperator : MemberFunctionType → Bool)
  | unionType (name : String) (isConst isVolatile : Bool)
      (callOperator : MemberFunctionType → Bool)
  | functionPointer (S : Signature)
  | function (S : Signature)
  | memberFunctionPointer (C : String) (F : MemberFunctionType)
  | other (name : String)

/-- `std::is_class<T>::value` of `<type_traits>`: true for a class type that is
not a union, qualified or not. -/
def std.is_class (T : CppType) : Bool :=
  match T with
  | CppType.classType _ _ _ _ => true
  | _ => false

/-- `std::is_same<T, U>::value` of `<type_traits>`.  Classes and unions are
the same when they have the same name and the same qualifiers. -/
def std.is_same (T U : CppType) : Bool :=
  match T, U with
  | CppType.classType n c v _, CppType.classType n2 c2 v2 _ => n == n2 && c == c2 && v == v2
  | CppType.unionType n c v _, CppType.unionType n2 c2 v2 _ => n == n2 && c == c2 && v == v2
  | CppType.functionPointer S, CppType.functionPointer S2 => decide (S = S2)
  | CppType.function S, CppType.function S2 => decide (S = S2)
  | CppType.memberFunctionPointer C F, CppType.memberFunctionPointer C2 F2 =>
    C == C2 && decide (F = F2)
  | CppType.other n, CppType.other n2 => n == n2
  | _, _ => false

/-- `build_free_function<F, R(Args...)>::type`, which is `R (*)(Args...)`. -/
def build_free_function (_F : CppType) (S : Signature) : CppType :=
  CppType.functionPointer S

/-- `build_class_function<C, R(Args...)>::type`, which is `R (C::*)(Args...)`.
The language has no pointer to a member of a type that is neither class nor
union, so for such a `C` the type is ill-formed (`none`). -/
def build_class_function (C : CppType) (S : Signature) : Option CppType :=
  match C with
  | CppType.classType name _ _ _ =>
    some (CppType.memberFunctionPointer name (MemberFunctionType.plain S))
  | CppType.unionType name _ _ _ =>
    some (CppType.memberFunctionPointer name (MemberFunctionType.plain S))
  | _ => none

/-- Whether the expression `&T::operator()` can be given the type `target`, as
the template argument of `check<target, &T::operator()>` must: `target` is a
pointer to a member function of `T`, and `T` has a call operator of that
member function type. -/
def addressOfCallOperator (T : CppType) (target : CppType) : Bool :=
  match T, target with
  | CppType.classType name _ _ callOperator, CppType.memberFunctionPointer C F =>
    name == C && callOperator F
  | CppType.unionType name _ _ callOperator, CppType.memberFunctionPointer C F =>
    name == C && callOperator F
  | _, _ => false

/-- `sizeof(yes)` in `is_functor_with_signature`, `yes` being `char(&)[1]`. -/
def is_functor_with_signature.sizeof_yes : Nat := 1

/-- `sizeof(no)` in `is_functor_with_signature`, `no` being `char(&)[2]`. -/
def is_functor_with_signature.sizeof_no : Nat := 2

/-- `sizeof(deduce<C>(0))` in `is_functor_with_signature<C, S>`.  The overload
that returns `yes` takes a `check<build_class_function<C, S>::type,
&T::operator()>*`; it takes part only if `&C::operator()` can be given exactly
that type, and then it is preferred to the overload with the ellipsis, which
returns `no`.  The parameter type does not depend on `T`, so an ill-formed
`build_class_function<C, S>::type` makes the whole trait ill-formed (`none`). -/
def is_functor_with_signature.sizeof_deduce (C : CppType) (S : Signature) : Option Nat :=
  match build_class_function C S with
  | none => none
  | some target =>
    if addressOfCallOperator C target then some is_functor_with_signature.sizeof_yes
    else some is_functor_with_signature.sizeof_no

/-- `is_functor_with_signature<C, S>::value`, which is
`sizeof(deduce<C>(0)) == sizeof(yes)`. -/
def is_functor_with_signature (C : CppType) (S : Signature) : Option Bool :=
  (is_functor_with_signature.sizeof_deduce C S).map
    (fun size => size == is_functor_with_signature.sizeof_yes)

/-- `is_function_with_signature<F, S>::value`, which is
`std::is_same<F, build_free_function<F, S>::type>::value`. -/
def is_function_with_signature (F : CppType) (S : Signature) : Bool :=
  std.is_same F (build_free_function F S)

/-- `is_functor_or_free_function_impl<C, S, b>::value`: the primary template
delegates to `is_functor_with_signature`, the specialisation for `false` to
`is_function_with_signature`. -/
def is_functor_or_free_function_impl (C : CppType) (S : Signature) (b : Bool) :
    Option Bool :=
  match b with
  | false => some (is_function_with_signature C S)
  | true => is_functor_with_signature C S

/-- `is_functor_or_free_function<Callable, Signature>::value`. -/
def is_functor_or_free_function (callable : CppType) (signature : Signature) :
    Option Bool :=
  is_functor_or_free_function_impl callable signature (std.is_class callable)

/-! ### Sample types -/

/-- The type `void`. -/
def voidType : DeclaredType :=
  DeclaredType.object (ObjectType.named "void") false false

/-- The type `int`, qualified `const` or not. -/
def intType (isConst : Bool) : DeclaredType :=
  DeclaredType.object (ObjectType.named "int") isConst false

/-- The signature `void (const FrameworkEvent&)` of a framework listener. -/
def listenerSignature : Signature :=
  functionType voidType
    [DeclaredType.lvalueReference (ObjectType.named "FrameworkEvent") true false]

/-- A class whose one call operator is declared with the given member function
type. -/
def functorClass (name : String) (F : MemberFunctionType) : CppType :=
  CppType.classType name false false (fun G => decide (G = F))

/-- The class `CallbackFunctor` of the listener test, which declares
`void operator()(const FrameworkEvent&)`. -/
def CallbackFunctor : CppType :=
  functorClass "CallbackFunctor" (MemberFunctionType.plain listenerSignature)

/-- A class that declares `void operator()(const FrameworkEvent&) const`, as
the closure type of a lambda does. -/
def constFunctor : CppType :=
  functorClass "ConstFunctor"
    { signature := listenerSignature, isConst := true, isVolatile := false,
      ref := RefQualifier.unqualified }

/-- A union that declares `void operator()(const FrameworkEvent&)`. -/
def unionFunctor : CppType :=
  CppType.unionType "U" false false
    (fun G => decide (G = MemberFunctionType.plain listenerSignature))

end cppmicroservices

namespace us

/-! ## Auxiliary facts -/

/-- `IsLoaded()` is false exactly when the context pointer is null. -/
theorem Module.not_loaded_iff (w : World) :
    Module.IsLoaded w = false ↔ w.d.moduleContext = none := by
  cases h : w.d.moduleContext <;> simp [Module.IsLoaded, h]

/-- The module events of two traces in a row. -/
theorem moduleEvents_append (s t : List Action) :
    moduleEvents (s ++ t) = moduleEvents s ++ moduleEvents t := by
  simp [moduleEvents, List.filterMap_append]

/-- The `Load` calls of two traces in a row. -/
theorem loadCalls_append (s t : List Action) :
    loadCalls (s ++ t) = loadCalls s ++ loadCalls t := by
  simp [loadCalls, List.filterMap_append]

/-- The hook calls of two traces in a row. -/
theorem hookCalls_append (s t : List Action) :
    hookCalls (s ++ t) = hookCalls s ++ hookCalls t := by
  simp [hookCalls, List.filterMap_append]

/-- The framework events of two traces in a row. -/
theorem frameworkEvents_append (s t : List Action) :
    frameworkEvents (s ++ t) = frameworkEvents s ++ frameworkEvents t := by
  simp [frameworkEvents, List.filterMap_append]

/-- The autoload step of `Start`, when it returns, adds `autoloadActions` to
the trace and changes nothing else. -/
theorem Module.Start.autoload_returns (env : Env) (w : World)
    (hauto : env.autoloadReturns w.d.info) :
    Module.Start.autoload env w =
      (Result.returned, { w with trace := w.trace ++ autoloadActions env w.d.info }) := by
  unfold Module.Start.autoload autoloadActions
  cases hflag : (env.US_ENABLE_AUTOLOADING_SUPPORT && env.IsAutoLoadingEnabled)
  · simp
  · simp [hauto hflag, World.emit]

/-- The autoload step dispatches no module event and calls no activator. -/
theorem autoloadActions_silent (env : Env) (info : ModuleInfo) :
    moduleEvents (autoloadActions env info) = [] ∧
    loadCalls (autoloadActions env info) = [] ∧
    hookCalls (autoloadActions env info) = [] ∧
    frameworkEvents (autoloadActions env info) = [] := by
  unfold autoloadActions
  split <;> simp [moduleEvents, loadCalls, hookCalls, frameworkEvents]

/-- The whole effect of a `Start` in which the symbol resolves and nothing
throws. -/
theorem Module.Start_eq_of_success (env : Env) (w : World)
    (hook : ModuleActivatorHook) (activator : ModuleActivatorPtr)
    (hctx : w.d.moduleContext = none)
    (hsym : env.GetSymbol w.d.info (c_str (activator_func w.d.info)) = some hook)
    (hhook : env.activatorHook hook = Call.returns (some activator))
    (hload : env.Load activator w.heap = Call.returns ())
    (hauto : env.autoloadReturns w.d.info) :
    Module.Start env w =
      (Result.returned,
        { d := { w.d with moduleContext := some w.heap, moduleActivator := some activator },
          heap := w.heap + 1,
          trace := w.trace ++
            ([Action.newModuleContext w.heap,
              Action.GetSymbol w.d.info (c_str (activator_func w.d.info)),
              Action.ModuleChanged ModuleEventType.LOADING
                { w.d with moduleContext := some w.heap },
              Action.activatorHook hook,
              Action.Load activator w.heap]
             ++ autoloadActions env w.d.info ++
             [Action.ModuleChanged ModuleEventType.LOADED
                { w.d with moduleContext := some w.heap,
                           moduleActivator := some activator }]) }) := by
  have h5 := Module.Start.autoload_returns env
    { d := { w.d with moduleContext := some w.heap, moduleActivator := some activator },
      heap := w.heap + 1,
      trace := w.trace ++
        [Action.newModuleContext w.heap,
         Action.GetSymbol w.d.info (c_str (activator_func w.d.info)),
         Action.ModuleChanged ModuleEventType.LOADING
           { w.d with moduleContext := some w.heap },
         Action.activatorHook hook,
         Action.Load activator w.heap] } hauto
  simp only [Module.Start, hctx, World.emit, ServiceListeners.ModuleChanged,
    Module.Start.activate, hsym, hhook, hload, List.append_assoc, List.cons_append,
    List.nil_append] at h5 ⊢
  rw [h5]
  simp

/-- A `Start` on a module whose context is present only logs a warning. -/
theorem Module.Start_eq_of_loaded (env : Env) (w : World) (ctx : ModuleContextPtr)
    (hctx : w.d.moduleContext = some ctx) :
    Module.Start env w =
      (Result.returned,
        { w with trace := w.trace ++
            [Action.US_WARN ("Module " ++ w.d.info.name ++ " already started.")] }) := by
  simp [Module.Start, hctx, World.emit]

/-- The whole effect of a `Start` in which the activator hook throws. -/
theorem Module.Start_eq_of_hook_throws (env : Env) (w : World)
    (hook : ModuleActivatorHook) (e : Exn)
    (hctx : w.d.moduleContext = none)
    (hsym : env.GetSymbol w.d.info (c_str (activator_func w.d.info)) = some hook)
    (hhook : env.activatorHook hook = Call.throws e) :
    Module.Start env w =
      (Result.threw e,
        { d := { w.d with moduleContext := some w.heap },
          heap := w.heap + 1,
          trace := w.trace ++
            [Action.newModuleContext w.heap,
             Action.GetSymbol w.d.info (c_str (activator_func w.d.info)),
             Action.ModuleChanged ModuleEventType.LOADING
               { w.d with moduleContext := some w.heap },
             Action.activatorHook hook,
             Action.US_ERROR
               ("Creating the module activator of " ++ w.d.info.name ++ " failed")] }) := by
  simp [Module.Start, hctx, World.emit, Module.Start.activate, hsym, hhook]

/-- The whole effect of a `Start` in which the hook returns an activator whose
`Load` throws. -/
theorem Module.Start_eq_of_Load_throws (env : Env) (w : World)
    (hook : ModuleActivatorHook) (activator : ModuleActivatorPtr) (e : Exn)
    (hctx : w.d.moduleContext = none)
    (hsym : env.GetSymbol w.d.info (c_str (activator_func w.d.info)) = some hook)
    (hhook : env.activatorHook hook = Call.returns (some activator))
    (hload : env.Load activator w.heap = Call.throws e) :
    Module.Start env w =
      (Result.threw e,
        { d := { w.d with moduleContext := some w.heap, moduleActivator := some activator },
          heap := w.heap + 1,
          trace := w.trace ++
            [Action.newModuleContext w.heap,
             Action.GetSymbol w.d.info (c_str (activator_func w.d.info)),
             Action.ModuleChanged ModuleEventType.LOADING
               { w.d with moduleContext := some w.heap },
             Action.activatorHook hook,
             Action.Load activator w.heap] }) := by
  simp [Module.Start, hctx, World.emit, Module.Start.activate, hsym, hhook, hload]

/-- The whole effect of `Uninit` on a module whose context is present. -/
theorem Module.Uninit_eq_of_loaded (w : World) (ctx : ModuleContextPtr)
    (hctx : w.d.moduleContext = some ctx) :
    Module.Uninit w =
      { d := { w.d with moduleContext := none, moduleActivator := none },
        heap := w.heap,
        trace := w.trace ++
          [Action.RemoveModuleResources,
           Action.deleteModuleContext ctx,
           Action.ModuleChanged ModuleEventType.UNLOADED
             { w.d with moduleContext := none }] } := by
  simp [Module.Uninit, hctx, World.emit]

/-- `Uninit` on a module whose context is absent does nothing. -/
theorem Module.Uninit_eq_of_not_loaded (w : World)
    (hctx : w.d.moduleContext = none) : Module.Uninit w = w := by
  simp [Module.Uninit, hctx]

/-- A `Stop` on a module whose context is absent only logs a warning. -/
theorem Module.Stop_eq_of_not_loaded (env : Env) (w : World)
    (hctx : w.d.moduleContext = none) :
    Module.Stop env w =
      (Result.returned,
        { w with trace := w.trace ++
            [Action.US_WARN ("Module " ++ w.d.info.name ++ " already stopped.")] }) := by
  simp [Module.Stop, hctx, World.emit]

/-- The whole effect of a `Stop` in which the activator's `Unload` throws. -/
theorem Module.Stop_eq_of_Unload_throws (env : Env) (w : World)
    (ctx : ModuleContextPtr) (activator : ModuleActivatorPtr) (e : Exn)
    (hctx : w.d.moduleContext = some ctx)
    (hact : w.d.moduleActivator = some activator)
    (hunload : env.Unload activator ctx = Call.throws e) :
    Module.Stop env w =
      (Result.threw e,
        { d := { w.d with moduleContext := none, moduleActivator := none },
          heap := w.heap,
          trace := w.trace ++
            [Action.ModuleChanged ModuleEventType.UNLOADING w.d,
             Action.Unload activator ctx,
             Action.US_WARN
               ("Calling the module activator Unload() method of " ++ w.d.info.name
                 ++ " failed!"),
             Action.RemoveModuleResources,
             Action.deleteModuleContext ctx,
             Action.ModuleChanged ModuleEventType.UNLOADED
               { w.d with moduleContext := none }] }) := by
  simp [Module.Stop, hctx, hact, hunload, World.emit, Module.Uninit]

/-- The whole effect of a `Stop` in which nothing throws. -/
theorem Module.Stop_eq_of_success (env : Env) (w : World) (ctx : ModuleContextPtr)
    (hctx : w.d.moduleContext = some ctx)
    (hunload : ∀ activator, w.d.moduleActivator = some activator →
      env.Unload activator ctx = Call.returns ()) :
    Module.Stop env w =
      (Result.returned,
        { d := { w.d with moduleContext := none, moduleActivator := none },
          heap := w.heap,
          trace := w.trace ++
            ([Action.ModuleChanged ModuleEventType.UNLOADING w.d]
             ++ unloadActions w ctx ++
             [Action.RemoveModuleResources,
              Action.deleteModuleContext ctx,
              Action.ModuleChanged ModuleEventType.UNLOADED
                { w.d with moduleContext := none }]) }) := by
  cases hact : w.d.moduleActivator with
  | none => simp [Module.Stop, hctx, hact, World.emit, Module.Uninit, unloadActions]
  | some activator =>
    simp [Module.Stop, hctx, hact, hunload activator hact, World.emit, Module.Uninit,
      unloadActions]

/-- The `Unload` call dispatches no module event. -/
theorem unloadActions_silent (w : World) (ctx : ModuleContextPtr) :
    moduleEvents (unloadActions w ctx) = [] := by
  unfold unloadActions
  split <;> simp [moduleEvents]

/-- The symbols asked in two traces in a row. -/
theorem symbolsAsked_append (s t : List Action) :
    symbolsAsked (s ++ t) = symbolsAsked s ++ symbolsAsked t := by
  simp [symbolsAsked, List.filterMap_append]

/-- Whatever the outside code does, a `Start` on a module whose context is
absent asks `GetSymbol` for one symbol, the C string of `activator_func`, and
ends with the context it created in place. -/
theorem Module.Start_of_not_loaded (env : Env) (w : World)
    (hctx : w.d.moduleContext = none) :
    ∃ calls,
      (Module.Start env w).2.trace = w.trace ++ calls ∧
      symbolsAsked calls = [c_str (activator_func w.d.info)] ∧
      (Module.Start env w).2.d.moduleContext = some w.heap := by
  cases hsym : env.GetSymbol w.d.info (c_str (activator_func w.d.info)) with
  | none =>
    cases hflag : (env.US_ENABLE_AUTOLOADING_SUPPORT && env.IsAutoLoadingEnabled) with
    | false =>
      simp [Module.Start, Module.Start.activate, Module.Start.autoload, hctx, hsym, hflag,
        World.emit, symbolsAsked]
    | true =>
      cases hauto : env.AutoLoadModules w.d.info <;>
        simp [Module.Start, Module.Start.activate, Module.Start.autoload, hctx, hsym,
          hflag, hauto, World.emit, symbolsAsked]
  | some hook =>
    cases hhook : env.activatorHook hook with
    | throws e =>
      simp [Module.Start, Module.Start.activate, hctx, hsym, hhook, World.emit,
        symbolsAsked]
    | returns a =>
      cases a with
      | none =>
        simp [Module.Start, Module.Start.activate, hctx, hsym, hhook, World.emit,
          symbolsAsked]
      | some activator =>
        cases hload : env.Load activator w.heap with
        | throws e =>
          simp [Module.Start, Module.Start.activate, hctx, hsym, hhook, hload,
            World.emit, symbolsAsked]
        | returns u =>
          cases hflag :
              (env.US_ENABLE_AUTOLOADING_SUPPORT && env.IsAutoLoadingEnabled) with
          | false =>
            simp [Module.Start, Module.Start.activate, Module.Start.autoload, hctx, hsym,
              hhook, hload, hflag, World.emit, symbolsAsked]
          | true =>
            cases hauto : env.AutoLoadModules w.d.info <;>
              simp [Module.Start, Module.Start.activate, Module.Start.autoload, hctx,
                hsym, hhook, hload, hflag, hauto, World.emit, symbolsAsked]

/-- A string without a NUL character is its own C string. -/
theorem c_str_eq_self (s : String) (hnul : Char.ofNat 0 ∉ s.data) : c_str s = s := by
  unfold c_str
  have h : s.data.takeWhile (fun c => c != Char.ofNat 0) = s.data := by
    rw [List.takeWhile_eq_self_iff]
    intro c hc
    have : c ≠ Char.ofNat 0 := fun h0 => hnul (h0 ▸ hc)
    simpa using this
  rw [h]

/-- The whole effect of a `Start` in which the symbol is absent and the
autoload step returns. -/
theorem Module.Start_eq_of_no_symbol (env : Env) (w : World)
    (hctx : w.d.moduleContext = none)
    (hsym : env.GetSymbol w.d.info (c_str (activator_func w.d.info)) = none)
    (hauto : env.autoloadReturns w.d.info) :
    Module.Start env w =
      (Result.returned,
        { d := { w.d with moduleContext := some w.heap },
          heap := w.heap + 1,
          trace := w.trace ++
            ([Action.newModuleContext w.heap,
              Action.GetSymbol w.d.info (c_str (activator_func w.d.info)),
              Action.ModuleChanged ModuleEventType.LOADING
                { w.d with moduleContext := some w.heap }]
             ++ autoloadActions env w.d.info ++
             [Action.ModuleChanged ModuleEventType.LOADED
                { w.d with moduleContext := some w.heap }]) }) := by
  have h5 := Module.Start.autoload_returns env
    { d := { w.d with moduleContext := some w.heap },
      heap := w.heap + 1,
      trace := w.trace ++
        [Action.newModuleContext w.heap,
         Action.GetSymbol w.d.info (c_str (activator_func w.d.info)),
         Action.ModuleChanged ModuleEventType.LOADING
           { w.d with moduleContext := some w.heap }] } hauto
  simp only [Module.Start, hctx, World.emit, ServiceListeners.ModuleChanged,
    Module.Start.activate, hsym, List.append_assoc, List.cons_append,
    List.nil_append] at h5 ⊢
  rw [h5]
  simp

/-- `Uninit` keeps a consistent state consistent. -/
theorem Module.Uninit_consistent (w : World) (h : w.consistent) :
    (Module.Uninit w).consistent := by
  cases hctx : w.d.moduleContext with
  | none => rw [Module.Uninit_eq_of_not_loaded w hctx]; exact h
  | some ctx => rw [Module.Uninit_eq_of_loaded w ctx hctx]; intro _; rfl

/-- `Start` keeps a consistent state consistent. -/
theorem Module.Start_consistent (env : Env) (w : World) (h : w.consistent) :
    (Module.Start env w).2.consistent := by
  cases hctx : w.d.moduleContext with
  | none =>
    obtain ⟨_, _, _, hm⟩ := Module.Start_of_not_loaded env w hctx
    intro hnone
    rw [hm] at hnone
    cases hnone
  | some ctx => rw [Module.Start_eq_of_loaded env w ctx hctx]; exact h

/-- `Stop` keeps a consistent state consistent. -/
theorem Module.Stop_consistent (env : Env) (w : World) (h : w.consistent) :
    (Module.Stop env w).2.consistent := by
  cases hctx : w.d.moduleContext with
  | none => rw [Module.Stop_eq_of_not_loaded env w hctx]; exact h
  | some ctx =>
    cases hact : w.d.moduleActivator with
    | none =>
      rw [Module.Stop_eq_of_success env w ctx hctx (by simp [hact])]
      intro _; rfl
    | some activator =>
      cases hunload : env.Unload activator ctx with
      | throws e =>
        rw [Module.Stop_eq_of_Unload_throws env w ctx activator e hctx hact hunload]
        intro _; rfl
      | returns u =>
        rw [Module.Stop_eq_of_success env w ctx hctx
          (by intro a ha; rw [hact] at ha; cases ha; exact hunload)]
        intro _; rfl

/-! ## Theorems -/

/-- C1, as the code has it: for a module that is not loaded, whose activator
symbol resolves, whose hook and `Load` return and whose autoload step, when
autoloading is compiled in and enabled, returns, `Start` returns, dispatches
exactly the module events `LOADING` then `LOADED`, calls `Load` exactly once,
between the two events, on the context it has just created, and leaves the
module loaded with that context. -/
theorem Module.Start_fires_LOADING_Load_LOADED (env : Env) (w : World)
    (hook : ModuleActivatorHook) (activator : ModuleActivatorPtr)
    (hnot : Module.IsLoaded w = false)
    (hsym : env.GetSymbol w.d.info (c_str (activator_func w.d.info)) = some hook)
    (hhook : env.activatorHook hook = Call.returns (some activator))
    (hload : env.Load activator w.heap = Call.returns ())
    (hauto : env.autoloadReturns w.d.info) :
    (Module.Start env w).1 = Result.returned ∧
    Module.IsLoaded (Module.Start env w).2 = true ∧
    Module.GetModuleContext (Module.Start env w).2 = some w.heap ∧
    ∃ calls,
      (Module.Start env w).2.trace = w.trace ++ calls ∧
      calls =
        [Action.newModuleContext w.heap,
         Action.GetSymbol w.d.info (c_str (activator_func w.d.info)),
         Action.ModuleChanged ModuleEventType.LOADING
           { w.d with moduleContext := some w.heap },
         Action.activatorHook hook,
         Action.Load activator w.heap]
        ++ autoloadActions env w.d.info ++
        [Action.ModuleChanged ModuleEventType.LOADED
           { w.d with moduleContext := some w.heap,
                      moduleActivator := some activator }] ∧
      moduleEvents calls = [ModuleEventType.LOADING, ModuleEventType.LOADED] ∧
      loadCalls calls = [(activator, w.heap)] := by
  have hctx := (Module.not_loaded_iff w).1 hnot
  rw [Module.Start_eq_of_success env w hook activator hctx hsym hhook hload hauto]
  obtain ⟨hme, hlc, _, _⟩ := autoloadActions_silent env w.d.info
  refine ⟨rfl, by simp [Module.IsLoaded], rfl, _, rfl, rfl, ?_, ?_⟩
  · rw [moduleEvents_append, moduleEvents_append, hme]
    simp [moduleEvents]
  · rw [loadCalls_append, loadCalls_append, hlc]
    simp [loadCalls]

/-- C1 as amended, at `goodEnv`: a first `Start` of `TestModuleA` returns,
loads the module, fires `LOADING`, `LOADED` and calls `Load` of activator 3 on
context 0. -/
theorem Module.Start_fires_LOADING_Load_LOADED_witness :
    (Module.Start goodEnv installedWorld).1 = Result.returned ∧
    Module.IsLoaded (Module.Start goodEnv installedWorld).2 = true ∧
    moduleEvents (Module.Start goodEnv installedWorld).2.trace
      = [ModuleEventType.LOADING, ModuleEventType.LOADED] ∧
    loadCalls (Module.Start goodEnv installedWorld).2.trace = [(3, 0)] := by
  have h := Module.Start_fires_LOADING_Load_LOADED goodEnv installedWorld 7 3
    (by decide) (by decide) (by decide) (by decide) (fun _ => rfl)
  exact ⟨h.1, h.2.1, by decide, by decide⟩

/-- C1 as stated fails: `TestModuleA` is not loaded, its activator symbol
resolves, its hook returns activator 3 and `Load` returns, and yet, with
autoloading enabled and `AutoLoadModules` throwing, `Start` does not return:
`AutoLoadModules` is called after `Load` and before `LOADED` is dispatched, so
the exception leaves `Start` with `LOADING` as the only module event. -/
theorem Module.Start_Load_returns_without_LOADED :
    Module.IsLoaded installedWorld = false ∧
    autoloadThrowsEnv.GetSymbol installedWorld.d.info
      (c_str (activator_func installedWorld.d.info)) = some 7 ∧
    autoloadThrowsEnv.activatorHook 7 = Call.returns (some 3) ∧
    autoloadThrowsEnv.Load 3 installedWorld.heap = Call.returns () ∧
    (Module.Start autoloadThrowsEnv installedWorld).1
      = Result.threw { what := "autoload failed" } ∧
    loadCalls (Module.Start autoloadThrowsEnv installedWorld).2.trace = [(3, 0)] ∧
    moduleEvents (Module.Start autoloadThrowsEnv installedWorld).2.trace
      = [ModuleEventType.LOADING] ∧
    ¬ moduleEvents (Module.Start autoloadThrowsEnv installedWorld).2.trace
      = [ModuleEventType.LOADING, ModuleEventType.LOADED] := by
  decide

/-- C2, as the code has it: when the activator hook or `Load` throws during
`Start` on a module that is not loaded, the exception leaves `Start` and the
context created at the top of `Start` stays in place: `IsLoaded()` is true,
`GetModuleContext()` is that context, and a later `Start` only warns that the
module is already started. -/
theorem Module.Start_failure_keeps_context (env : Env) (w : World)
    (hook : ModuleActivatorHook) (e : Exn)
    (hnot : Module.IsLoaded w = false)
    (hsym : env.GetSymbol w.d.info (c_str (activator_func w.d.info)) = some hook)
    (hthrow : env.activatorHook hook = Call.throws e ∨
      ∃ activator, env.activatorHook hook = Call.returns (some activator) ∧
        env.Load activator w.heap = Call.throws e) :
    (Module.Start env w).1 = Result.threw e ∧
    Module.IsLoaded (Module.Start env w).2 = true ∧
    Module.GetModuleContext (Module.Start env w).2 = some w.heap ∧
    Module.Start env (Module.Start env w).2 =
      (Result.returned,
        { (Module.Start env w).2 with
          trace := (Module.Start env w).2.trace ++
            [Action.US_WARN ("Module " ++ w.d.info.name ++ " already started.")] }) := by
  have hctx := (Module.not_loaded_iff w).1 hnot
  rcases hthrow with hhook | ⟨activator, hhook, hload⟩
  · rw [Module.Start_eq_of_hook_throws env w hook e hctx hsym hhook]
    refine ⟨rfl, by simp [Module.IsLoaded], rfl, ?_⟩
    rw [Module.Start_eq_of_loaded env _ w.heap rfl]
  · rw [Module.Start_eq_of_Load_throws env w hook activator e hctx hsym hhook hload]
    refine ⟨rfl, by simp [Module.IsLoaded], rfl, ?_⟩
    rw [Module.Start_eq_of_loaded env _ w.heap rfl]

/-- C2 as amended, at `loadThrowsEnv`: the `Start` raises and the module
reports loaded. -/
theorem Module.Start_failure_keeps_context_witness :
    (Module.Start loadThrowsEnv installedWorld).1 = Result.threw { what := "Load failed" } ∧
    Module.IsLoaded (Module.Start loadThrowsEnv installedWorld).2 = true :=
  have h := Module.Start_failure_keeps_context loadThrowsEnv installedWorld 7
    { what := "Load failed" } (by decide) (by decide) (Or.inr ⟨3, by decide, by decide⟩)
  ⟨h.1, h.2.1⟩

/-- C2 as stated fails: with an activator whose `Load` throws, and with a hook
that throws, `Start` on a module that was not loaded raises and the module
then reports `IsLoaded()` true with a non-null context, and the next `Start`
returns with the "already started" warning as its only call. -/
theorem Module.Start_failure_not_rolled_back :
    Module.IsLoaded installedWorld = false ∧
    (Module.Start loadThrowsEnv installedWorld).1 = Result.threw { what := "Load failed" } ∧
    ¬ Module.IsLoaded (Module.Start loadThrowsEnv installedWorld).2 = false ∧
    ¬ Module.GetModuleContext (Module.Start loadThrowsEnv installedWorld).2 = none ∧
    (Module.Start hookThrowsEnv installedWorld).1 = Result.threw { what := "no activator" } ∧
    ¬ Module.IsLoaded (Module.Start hookThrowsEnv installedWorld).2 = false ∧
    ¬ Module.GetModuleContext (Module.Start hookThrowsEnv installedWorld).2 = none ∧
    (Module.Start loadThrowsEnv (Module.Start loadThrowsEnv installedWorld).2).2.trace =
      (Module.Start loadThrowsEnv installedWorld).2.trace ++
        [Action.US_WARN "Module TestModuleA already started."] := by
  decide

/-- C3, as the code has it: when the activator hook or `Load` throws during
`Start` on a module that is not loaded, the exception that leaves `Start` is
the one thrown, `Start` dispatches no framework event at all, `LOADING` is
the only module event it dispatches, so no `LOADED` is fired, and the last
call `Start` makes is the error log of the failed hook or the failed `Load`
itself. -/
theorem Module.Start_failure_propagates (env : Env) (w : World)
    (hook : ModuleActivatorHook) (e : Exn)
    (hnot : Module.IsLoaded w = false)
    (hsym : env.GetSymbol w.d.info (c_str (activator_func w.d.info)) = some hook)
    (hthrow : env.activatorHook hook = Call.throws e ∨
      ∃ activator, env.activatorHook hook = Call.returns (some activator) ∧
        env.Load activator w.heap = Call.throws e) :
    (Module.Start env w).1 = Result.threw e ∧
    ∃ calls,
      (Module.Start env w).2.trace = w.trace ++ calls ∧
      frameworkEvents calls = [] ∧
      moduleEvents calls = [ModuleEventType.LOADING] ∧
      ModuleEventType.LOADED ∉ moduleEvents calls ∧
      (calls.getLast? = some (Action.US_ERROR
          ("Creating the module activator of " ++ w.d.info.name ++ " failed")) ∨
        ∃ activator, calls.getLast? = some (Action.Load activator w.heap)) := by
  have hctx := (Module.not_loaded_iff w).1 hnot
  rcases hthrow with hhook | ⟨activator, hhook, hload⟩
  · rw [Module.Start_eq_of_hook_throws env w hook e hctx hsym hhook]
    exact ⟨rfl, _, rfl, by simp [frameworkEvents], by simp [moduleEvents],
      by simp [moduleEvents], Or.inl (by simp)⟩
  · rw [Module.Start_eq_of_Load_throws env w hook activator e hctx hsym hhook hload]
    exact ⟨rfl, _, rfl, by simp [frameworkEvents], by simp [moduleEvents],
      by simp [moduleEvents], Or.inr ⟨activator, by simp⟩⟩

/-- C3 as amended, at `hookThrowsEnv`: the `Start` raises the hook's exception
and no framework event is in the trace. -/
theorem Module.Start_failure_propagates_witness :
    (Module.Start hookThrowsEnv installedWorld).1 = Result.threw { what := "no activator" } ∧
    frameworkEvents (Module.Start hookThrowsEnv installedWorld).2.trace = [] :=
  have h := Module.Start_failure_propagates hookThrowsEnv installedWorld 7
    { what := "no activator" } (by decide) (by decide) (Or.inl (by decide))
  ⟨h.1, by decide⟩

/-- C3 as stated fails: with an activator whose `Load` throws, and with a hook
that throws, the exception leaves `Start` and the calls `Start` has made
contain no `ERROR` framework event. -/
theorem Module.Start_failure_fires_no_ERROR :
    Module.IsLoaded installedWorld = false ∧
    (Module.Start loadThrowsEnv installedWorld).1 = Result.threw { what := "Load failed" } ∧
    ¬ Action.FrameworkEvent FrameworkEventType.ERROR ∈
        (Module.Start loadThrowsEnv installedWorld).2.trace ∧
    (Module.Start hookThrowsEnv installedWorld).1 = Result.threw { what := "no activator" } ∧
    ¬ Action.FrameworkEvent FrameworkEventType.ERROR ∈
        (Module.Start hookThrowsEnv installedWorld).2.trace := by
  decide

/-- C4: on a loaded module whose activator's `Unload` throws, `Stop` still
runs `Uninit` in full (resources removed, context deleted and nulled,
`UNLOADED` dispatched, activator pointer nulled) and then lets the exception
thrown by `Unload` leave to its caller. -/
theorem Module.Stop_Unload_throws_still_uninits (env : Env) (w : World)
    (ctx : ModuleContextPtr) (activator : ModuleActivatorPtr) (e : Exn)
    (hctx : Module.GetModuleContext w = some ctx)
    (hact : w.d.moduleActivator = some activator)
    (hunload : env.Unload activator ctx = Call.throws e) :
    (Module.Stop env w).1 = Result.threw e ∧
    Module.IsLoaded (Module.Stop env w).2 = false ∧
    (Module.Stop env w).2.d.moduleActivator = none ∧
    ∃ calls,
      (Module.Stop env w).2.trace = w.trace ++ calls ∧
      calls =
        [Action.ModuleChanged ModuleEventType.UNLOADING w.d,
         Action.Unload activator ctx,
         Action.US_WARN
           ("Calling the module activator Unload() method of " ++ w.d.info.name
             ++ " failed!"),
         Action.RemoveModuleResources,
         Action.deleteModuleContext ctx,
         Action.ModuleChanged ModuleEventType.UNLOADED
           { w.d with moduleContext := none }] ∧
      moduleEvents calls = [ModuleEventType.UNLOADING, ModuleEventType.UNLOADED] := by
  rw [Module.Stop_eq_of_Unload_throws env w ctx activator e hctx hact hunload]
  exact ⟨rfl, by simp [Module.IsLoaded], rfl, _, rfl, rfl, by simp [moduleEvents]⟩

/-- C4 at `unloadThrowsEnv`: `Stop` of the started module raises the exception
of `Unload` with context and activator pointer null. -/
theorem Module.Stop_Unload_throws_still_uninits_witness :
    (Module.Stop unloadThrowsEnv activeWorld).1 = Result.threw { what := "Unload failed" } ∧
    Module.IsLoaded (Module.Stop unloadThrowsEnv activeWorld).2 = false ∧
    (Module.Stop unloadThrowsEnv activeWorld).2.d.moduleActivator = none :=
  have h := Module.Stop_Unload_throws_still_uninits unloadThrowsEnv activeWorld 0 3
    { what := "Unload failed" } (by decide) (by decide) (by decide)
  ⟨h.1, h.2.1, h.2.2.1⟩

/-- C5: on a loaded module where nothing throws, `Stop` returns after
dispatching `UNLOADING`, calling `Unload` on the activator if there is one,
removing the module's resources, deleting and nulling the context,
dispatching `UNLOADED` (the listener sees the context gone and the activator
pointer still as it was) and nulling the activator pointer; the module events
are exactly `UNLOADING`, `UNLOADED`, and `IsLoaded()` is false afterwards. -/
theorem Module.Stop_fires_UNLOADING_Unload_UNLOADED (env : Env) (w : World)
    (ctx : ModuleContextPtr)
    (hctx : Module.GetModuleContext w = some ctx)
    (hunload : ∀ activator, w.d.moduleActivator = some activator →
      env.Unload activator ctx = Call.returns ()) :
    (Module.Stop env w).1 = Result.returned ∧
    Module.IsLoaded (Module.Stop env w).2 = false ∧
    (Module.Stop env w).2.d =
      { w.d with moduleContext := none, moduleActivator := none } ∧
    ∃ calls,
      (Module.Stop env w).2.trace = w.trace ++ calls ∧
      calls =
        [Action.ModuleChanged ModuleEventType.UNLOADING w.d]
        ++ unloadActions w ctx ++
        [Action.RemoveModuleResources,
         Action.deleteModuleContext ctx,
         Action.ModuleChanged ModuleEventType.UNLOADED
           { w.d with moduleContext := none }] ∧
      moduleEvents calls = [ModuleEventType.UNLOADING, ModuleEventType.UNLOADED] := by
  rw [Module.Stop_eq_of_success env w ctx hctx hunload]
  refine ⟨rfl, by simp [Module.IsLoaded], rfl, _, rfl, rfl, ?_⟩
  rw [moduleEvents_append, moduleEvents_append, unloadActions_silent]
  simp [moduleEvents]

/-- C5 at `goodEnv`: `Stop` of the started module returns, the module is not
loaded, and `Unload` of activator 3 was called on context 0. -/
theorem Module.Stop_fires_UNLOADING_Unload_UNLOADED_witness :
    (Module.Stop goodEnv activeWorld).1 = Result.returned ∧
    Module.IsLoaded (Module.Stop goodEnv activeWorld).2 = false ∧
    unloadCalls (Module.Stop goodEnv activeWorld).2.trace = [(3, 0)] :=
  have h := Module.Stop_fires_UNLOADING_Unload_UNLOADED goodEnv activeWorld 0
    (by decide) (by intro _ _; rfl)
  ⟨h.1, h.2.1, by decide⟩

/-- C6: on a module whose context is present, `Start` returns having made one
call, the "already started" warning: it dispatches no module event, asks for
no symbol, calls no hook and no `Load`, creates no context, and leaves the
module's context and activator pointer as they were. -/
theorem Module.Start_when_loaded_only_warns (env : Env) (w : World)
    (ctx : ModuleContextPtr)
    (hctx : Module.GetModuleContext w = some ctx) :
    (Module.Start env w).1 = Result.returned ∧
    (Module.Start env w).2.d = w.d ∧
    (Module.Start env w).2.heap = w.heap ∧
    ∃ calls,
      (Module.Start env w).2.trace = w.trace ++ calls ∧
      calls = [Action.US_WARN ("Module " ++ w.d.info.name ++ " already started.")] ∧
      moduleEvents calls = [] ∧
      symbolsAsked calls = [] ∧
      hookCalls calls = [] ∧
      loadCalls calls = [] := by
  rw [Module.Start_eq_of_loaded env w ctx hctx]
  exact ⟨rfl, rfl, rfl, _, rfl, rfl, by simp [moduleEvents], by simp [symbolsAsked],
    by simp [hookCalls], by simp [loadCalls]⟩

/-- C6 at `goodEnv`: `Start` of the started module returns and leaves its data
alone. -/
theorem Module.Start_when_loaded_only_warns_witness :
    (Module.Start goodEnv activeWorld).1 = Result.returned ∧
    (Module.Start goodEnv activeWorld).2.d = activeWorld.d :=
  have h := Module.Start_when_loaded_only_warns goodEnv activeWorld 0 (by decide)
  ⟨h.1, h.2.1⟩

/-- C7: on a module whose context is absent, `Stop` returns having made one
call, the "already stopped" warning: it dispatches neither `UNLOADING` nor
`UNLOADED`, calls no `Unload`, removes no resources, deletes no context, and
leaves the module's data unchanged. -/
theorem Module.Stop_when_not_loaded_only_warns (env : Env) (w : World)
    (hnot : Module.IsLoaded w = false) :
    (Module.Stop env w).1 = Result.returned ∧
    (Module.Stop env w).2.d = w.d ∧
    (Module.Stop env w).2.heap = w.heap ∧
    ∃ calls,
      (Module.Stop env w).2.trace = w.trace ++ calls ∧
      calls = [Action.US_WARN ("Module " ++ w.d.info.name ++ " already stopped.")] ∧
      moduleEvents calls = [] ∧
      unloadCalls calls = [] ∧
      Action.RemoveModuleResources ∉ calls ∧
      ∀ ctx, Action.deleteModuleContext ctx ∉ calls := by
  rw [Module.Stop_eq_of_not_loaded env w ((Module.not_loaded_iff w).1 hnot)]
  exact ⟨rfl, rfl, rfl, _, rfl, rfl, by simp [moduleEvents], by simp [unloadCalls],
    by simp, by simp⟩

/-- C7 at `unloadThrowsEnv`: `Stop` of the module that was never started
returns and leaves its data alone. -/
theorem Module.Stop_when_not_loaded_only_warns_witness :
    (Module.Stop unloadThrowsEnv installedWorld).1 = Result.returned ∧
    (Module.Stop unloadThrowsEnv installedWorld).2.d = installedWorld.d :=
  have h := Module.Stop_when_not_loaded_only_warns unloadThrowsEnv installedWorld
    (by decide)
  ⟨h.1, h.2.1⟩

/-- C8: `Uninit` is idempotent. On a module whose context is absent it changes
nothing and makes no call; a second `Uninit` right after a first leaves the
state and the trace of the first; and the calls of the two together dispatch
no module event or the single event `UNLOADED`. -/
theorem Module.Uninit_idempotent (w : World) :
    (Module.IsLoaded w = false → Module.Uninit w = w) ∧
    Module.IsLoaded (Module.Uninit w) = false ∧
    Module.Uninit (Module.Uninit w) = Module.Uninit w ∧
    ∃ calls,
      (Module.Uninit (Module.Uninit w)).trace = w.trace ++ calls ∧
      (moduleEvents calls = [] ∨ moduleEvents calls = [ModuleEventType.UNLOADED]) := by
  cases hctx : w.d.moduleContext with
  | none =>
    have h1 := Module.Uninit_eq_of_not_loaded w hctx
    rw [h1, h1]
    exact ⟨fun _ => rfl, by simp [Module.IsLoaded, hctx], rfl, [], by simp,
      Or.inl (by simp [moduleEvents])⟩
  | some ctx =>
    have h1 := Module.Uninit_eq_of_loaded w ctx hctx
    have h2 : Module.Uninit (Module.Uninit w) = Module.Uninit w := by
      apply Module.Uninit_eq_of_not_loaded
      rw [h1]
    rw [h2, h1]
    exact ⟨fun h => by simp [Module.IsLoaded, hctx] at h, by simp [Module.IsLoaded], rfl,
      _, rfl, Or.inr (by simp [moduleEvents])⟩

/-- C8 at the two sample modules: `Uninit` of the never-started module is the
identity, and two `Uninit` of the started module equal one, with a single
`UNLOADED`. -/
theorem Module.Uninit_idempotent_witness :
    Module.Uninit installedWorld = installedWorld ∧
    Module.Uninit (Module.Uninit activeWorld) = Module.Uninit activeWorld ∧
    moduleEvents (Module.Uninit (Module.Uninit activeWorld)).trace
      = [ModuleEventType.UNLOADED] :=
  ⟨(Module.Uninit_idempotent installedWorld).1 (by decide),
   (Module.Uninit_idempotent activeWorld).2.2.1, by decide⟩

/-- C9, as the code has it: for a module whose name contains no NUL
character, whatever the library exports and whatever the activator does,
`Start` on the not-loaded module asks `GetSymbol` for exactly one symbol, the
string `_us_module_activator_instance_` followed by the module's name. -/
theorem Module.Start_asks_activator_symbol (env : Env) (w : World)
    (hnot : Module.IsLoaded w = false)
    (hnul : Char.ofNat 0 ∉ w.d.info.name.data) :
    ∃ calls,
      (Module.Start env w).2.trace = w.trace ++ calls ∧
      symbolsAsked calls = ["_us_module_activator_instance_" ++ w.d.info.name] := by
  obtain ⟨calls, ht, hs, _⟩ :=
    Module.Start_of_not_loaded env w ((Module.not_loaded_iff w).1 hnot)
  refine ⟨calls, ht, ?_⟩
  rw [hs, c_str_eq_self]
  · rfl
  · unfold activator_func
    rw [String.data_append, List.mem_append]
    rintro (h | h)
    · revert h
      decide
    · exact hnul h

/-- C9 as amended, at `TestModuleA`: the one symbol asked is
`_us_module_activator_instance_TestModuleA`. -/
theorem Module.Start_asks_activator_symbol_witness :
    symbolsAsked (Module.Start goodEnv installedWorld).2.trace
      = ["_us_module_activator_instance_TestModuleA"] := by
  obtain ⟨calls, ht, hs⟩ :=
    Module.Start_asks_activator_symbol goodEnv installedWorld (by decide) (by decide)
  rw [ht, symbolsAsked_append, hs]
  decide

/-- C9 as stated fails for a name with an embedded NUL: for the module named
a, NUL, b the symbol handed to `GetSymbol` is
`_us_module_activator_instance_a`, which is not the prefix followed by the
name. -/
theorem Module.Start_symbol_cut_at_NUL :
    Module.IsLoaded nulWorld = false ∧
    symbolsAsked (Module.Start goodEnv nulWorld).2.trace
      = ["_us_module_activator_instance_a"] ∧
    ¬ symbolsAsked (Module.Start goodEnv nulWorld).2.trace
      = ["_us_module_activator_instance_" ++ nulWorld.d.info.name] := by
  decide

/-- C10, as the code has it: for a consistent module that is not loaded, whose
activator symbol is absent and whose autoload step, when autoloading is
compiled in and enabled, returns, `Start` returns: it creates the context,
dispatches exactly `LOADING` then `LOADED`, calls no hook and no `Load`, and
leaves the activator pointer null; a `Stop` right after returns having
dispatched exactly `UNLOADING` then `UNLOADED` and called no `Unload`. -/
theorem Module.Start_Stop_without_activator (env : Env) (w : World)
    (hnot : Module.IsLoaded w = false)
    (hwf : w.consistent)
    (hsym : env.GetSymbol w.d.info (c_str (activator_func w.d.info)) = none)
    (hauto : env.autoloadReturns w.d.info) :
    (Module.Start env w).1 = Result.returned ∧
    Module.GetModuleContext (Module.Start env w).2 = some w.heap ∧
    (Module.Start env w).2.d.moduleActivator = none ∧
    (∃ calls,
      (Module.Start env w).2.trace = w.trace ++ calls ∧
      Action.newModuleContext w.heap ∈ calls ∧
      moduleEvents calls = [ModuleEventType.LOADING, ModuleEventType.LOADED] ∧
      hookCalls calls = [] ∧
      loadCalls calls = []) ∧
    (Module.Stop env (Module.Start env w).2).1 = Result.returned ∧
    ∃ calls,
      (Module.Stop env (Module.Start env w).2).2.trace
        = (Module.Start env w).2.trace ++ calls ∧
      moduleEvents calls = [ModuleEventType.UNLOADING, ModuleEventType.UNLOADED] ∧
      unloadCalls calls = [] := by
  have hctx := (Module.not_loaded_iff w).1 hnot
  have hact : w.d.moduleActivator = none := hwf hctx
  obtain ⟨hme, hlc, hhc, _⟩ := autoloadActions_silent env w.d.info
  rw [Module.Start_eq_of_no_symbol env w hctx hsym hauto]
  refine ⟨rfl, rfl, hact, ⟨_, rfl, by simp, ?_, ?_, ?_⟩, ?_⟩
  · rw [moduleEvents_append, moduleEvents_append, hme]
    simp [moduleEvents]
  · rw [hookCalls_append, hookCalls_append, hhc]
    simp [hookCalls]
  · rw [loadCalls_append, loadCalls_append, hlc]
    simp [loadCalls]
  · rw [Module.Stop_eq_of_success env _ w.heap rfl (by simp [hact])]
    refine ⟨rfl, _, rfl, ?_, ?_⟩
    · simp [moduleEvents, unloadActions, hact]
    · simp [unloadCalls, unloadActions, hact]

/-- C10 as amended, at `noSymbolEnv`: `Start` then `Stop` both return and the
module events are `LOADING`, `LOADED`, `UNLOADING`, `UNLOADED`. -/
theorem Module.Start_Stop_without_activator_witness :
    (Module.Start noSymbolEnv installedWorld).1 = Result.returned ∧
    (Module.Stop noSymbolEnv (Module.Start noSymbolEnv installedWorld).2).1
      = Result.returned ∧
    moduleEvents (Module.Stop noSymbolEnv (Module.Start noSymbolEnv installedWorld).2).2.trace
      = [ModuleEventType.LOADING, ModuleEventType.LOADED,
         ModuleEventType.UNLOADING, ModuleEventType.UNLOADED] :=
  have h := Module.Start_Stop_without_activator noSymbolEnv installedWorld
    (by decide) (fun _ => rfl) (by decide) (fun _ => rfl)
  ⟨h.1, h.2.2.2.2.1, by decide⟩

/-- C10 as stated fails: `TestModuleA` is not loaded and consistent, the
library exports no activator symbol, and yet, with autoloading enabled and
`AutoLoadModules` throwing, `Start` fails: the exception leaves it, no hook
and no `Load` having been called, with `LOADING` as the only module event. -/
theorem Module.Start_without_activator_can_fail :
    Module.IsLoaded installedWorld = false ∧
    installedWorld.d.moduleActivator = none ∧
    noSymbolAutoloadThrowsEnv.GetSymbol installedWorld.d.info
      (c_str (activator_func installedWorld.d.info)) = none ∧
    (Module.Start noSymbolAutoloadThrowsEnv installedWorld).1
      = Result.threw { what := "autoload failed" } ∧
    hookCalls (Module.Start noSymbolAutoloadThrowsEnv installedWorld).2.trace = [] ∧
    loadCalls (Module.Start noSymbolAutoloadThrowsEnv installedWorld).2.trace = [] ∧
    moduleEvents (Module.Start noSymbolAutoloadThrowsEnv installedWorld).2.trace
      = [ModuleEventType.LOADING] ∧
    ¬ (Module.Start noSymbolAutoloadThrowsEnv installedWorld).1 = Result.returned := by
  decide

/-! ## Initialisation, autoload failure, manifest keys -/

/-- The whole effect of a `Start` in which the activator step returns, the
autoload step is enabled and `AutoLoadModules` throws. -/
theorem Module.Start_eq_of_autoload_throws (env : Env) (w : World) (e : Exn)
    (hctx : w.d.moduleContext = none)
    (hflag : (env.US_ENABLE_AUTOLOADING_SUPPORT && env.IsAutoLoadingEnabled) = true)
    (hauto : env.AutoLoadModules w.d.info = Call.throws e) :
    (env.GetSymbol w.d.info (c_str (activator_func w.d.info)) = none →
      Module.Start env w =
        (Result.threw e,
          { d := { w.d with moduleContext := some w.heap },
            heap := w.heap + 1,
            trace := w.trace ++
              [Action.newModuleContext w.heap,
               Action.GetSymbol w.d.info (c_str (activator_func w.d.info)),
               Action.ModuleChanged ModuleEventType.LOADING
                 { w.d with moduleContext := some w.heap },
               Action.AutoLoadModules w.d.info] })) ∧
    (∀ hook activator,
      env.GetSymbol w.d.info (c_str (activator_func w.d.info)) = some hook →
      env.activatorHook hook = Call.returns (some activator) →
      env.Load activator w.heap = Call.returns () →
      Module.Start env w =
        (Result.threw e,
          { d := { w.d with moduleContext := some w.heap,
                            moduleActivator := some activator },
            heap := w.heap + 1,
            trace := w.trace ++
              [Action.newModuleContext w.heap,
               Action.GetSymbol w.d.info (c_str (activator_func w.d.info)),
               Action.ModuleChanged ModuleEventType.LOADING
                 { w.d with moduleContext := some w.heap },
               Action.activatorHook hook,
               Action.Load activator w.heap,
               Action.AutoLoadModules w.d.info] })) := by
  constructor
  · intro hsym
    simp [Module.Start, Module.Start.activate, Module.Start.autoload, hctx, hsym, hflag,
      hauto, World.emit]
  · intro hook activator hsym hhook hload
    simp [Module.Start, Module.Start.activate, Module.Start.autoload, hctx, hsym, hhook,
      hload, hflag, hauto, World.emit]

/-- C11, as the code has it: `Init` has no guard against a second call.  On a
module on which `Init` has succeeded, a second `Init` whose `ModulePrivate`
construction succeeds returns normally, puts the new object into `d` and
deletes the object of the first call; whether `Init` fails never depends on
the module having been initialised before. -/
theorem Module.Init_again_replaces (construct : Nat → ModuleInfo → Call ModulePrivate)
    (m : Module) (coreCtx coreCtx2 : Nat) (info info2 : ModuleInfo)
    (d1 d2 : ModulePrivate)
    (h1 : construct coreCtx info = Call.returns d1)
    (h2 : construct coreCtx2 info2 = Call.returns d2) :
    (Module.Init construct m coreCtx info).result = Result.returned ∧
    (Module.Init construct m coreCtx info).module.d = some d1 ∧
    (Module.Init construct (Module.Init construct m coreCtx info).module coreCtx2 info2).result
      = Result.returned ∧
    (Module.Init construct (Module.Init construct m coreCtx info).module coreCtx2 info2).module.d
      = some d2 ∧
    (Module.Init construct (Module.Init construct m coreCtx info).module coreCtx2 info2).deleted
      = some d1 ∧
    ∀ m2 : Module,
      (Module.Init construct m2 coreCtx2 info2).result
        = (Module.Init construct m coreCtx2 info2).result := by
  simp [Module.Init, h1, h2]

/-- C11 as amended, at a fresh module: two `Init` in a row both return, and the
second deletes the private data of the first. -/
theorem Module.Init_again_replaces_witness :
    (Module.Init plainConstruct Module.constructed 0 sampleInfo).result = Result.returned ∧
    (Module.Init plainConstruct
      (Module.Init plainConstruct Module.constructed 0 sampleInfo).module 0 nulInfo).result
      = Result.returned :=
  have h := Module.Init_again_replaces plainConstruct Module.constructed 0 0 sampleInfo nulInfo
    { info := sampleInfo, moduleContext := none, moduleActivator := none }
    { info := nulInfo, moduleContext := none, moduleActivator := none } rfl rfl
  ⟨h.1, h.2.2.1⟩

/-- C11 as stated fails: on a freshly constructed module a first `Init`
succeeds, and a second `Init` with the same arguments returns normally as
well; no exception leaves it. -/
theorem Module.Init_twice_does_not_fail :
    (Module.Init plainConstruct Module.constructed 0 sampleInfo).result = Result.returned ∧
    (Module.Init plainConstruct
      (Module.Init plainConstruct Module.constructed 0 sampleInfo).module 0 sampleInfo).result
      = Result.returned ∧
    ¬ ∃ e, (Module.Init plainConstruct
      (Module.Init plainConstruct Module.constructed 0 sampleInfo).module 0 sampleInfo).result
      = Result.threw e := by
  refine ⟨by decide, by decide, ?_⟩
  rintro ⟨e, he⟩
  simp [Module.Init, plainConstruct] at he

/-- C12, as the code has it: on a module that is not loaded, with autoloading
compiled in and enabled and the activator step returning (no symbol, or hook
and `Load` returning), an exception thrown by `AutoLoadModules` leaves
`Start`: `LOADING` is the only module event, so no `LOADED` is fired, `Start`
dispatches no framework event, its last call is `AutoLoadModules`, and the
module stays loaded. -/
theorem Module.Start_autoload_failure_aborts (env : Env) (w : World) (e : Exn)
    (hnot : Module.IsLoaded w = false)
    (hflag : (env.US_ENABLE_AUTOLOADING_SUPPORT && env.IsAutoLoadingEnabled) = true)
    (hreach : env.GetSymbol w.d.info (c_str (activator_func w.d.info)) = none ∨
      ∃ hook activator,
        env.GetSymbol w.d.info (c_str (activator_func w.d.info)) = some hook ∧
        env.activatorHook hook = Call.returns (some activator) ∧
        env.Load activator w.heap = Call.returns ())
    (hauto : env.AutoLoadModules w.d.info = Call.throws e) :
    (Module.Start env w).1 = Result.threw e ∧
    Module.IsLoaded (Module.Start env w).2 = true ∧
    ∃ calls,
      (Module.Start env w).2.trace = w.trace ++ calls ∧
      moduleEvents calls = [ModuleEventType.LOADING] ∧
      ModuleEventType.LOADED ∉ moduleEvents calls ∧
      frameworkEvents calls = [] ∧
      calls.getLast? = some (Action.AutoLoadModules w.d.info) := by
  have hctx := (Module.not_loaded_iff w).1 hnot
  obtain ⟨hnone, hsome⟩ := Module.Start_eq_of_autoload_throws env w e hctx hflag hauto
  rcases hreach with hsym | ⟨hook, activator, hsym, hhook, hload⟩
  · rw [hnone hsym]
    exact ⟨rfl, by simp [Module.IsLoaded], _, rfl, by simp [moduleEvents],
      by simp [moduleEvents], by simp [frameworkEvents], by simp⟩
  · rw [hsome hook activator hsym hhook hload]
    exact ⟨rfl, by simp [Module.IsLoaded], _, rfl, by simp [moduleEvents],
      by simp [moduleEvents], by simp [frameworkEvents], by simp⟩

/-- C12 as amended, at `autoloadThrowsEnv`: the `Start` raises the exception of
`AutoLoadModules` and the trace holds `LOADING` only. -/
theorem Module.Start_autoload_failure_aborts_witness :
    (Module.Start autoloadThrowsEnv installedWorld).1
      = Result.threw { what := "autoload failed" } ∧
    moduleEvents (Module.Start autoloadThrowsEnv installedWorld).2.trace
      = [ModuleEventType.LOADING] :=
  have h := Module.Start_autoload_failure_aborts autoloadThrowsEnv installedWorld
    { what := "autoload failed" } (by decide) (by decide)
    (Or.inr ⟨7, 3, by decide, by decide, by decide⟩) (by decide)
  ⟨h.1, by decide⟩

/-- C12 as stated fails: with autoloading enabled and `AutoLoadModules`
throwing, with and without an activator, `Start` does not return normally,
fires no `LOADED`, and makes no `ERROR` framework event. -/
theorem Module.Start_autoload_failure_not_contained :
    Module.IsLoaded installedWorld = false ∧
    ¬ (Module.Start autoloadThrowsEnv installedWorld).1 = Result.returned ∧
    ¬ ModuleEventType.LOADED ∈
        moduleEvents (Module.Start autoloadThrowsEnv installedWorld).2.trace ∧
    ¬ Action.FrameworkEvent FrameworkEventType.ERROR ∈
        (Module.Start autoloadThrowsEnv installedWorld).2.trace ∧
    ¬ (Module.Start noSymbolAutoloadThrowsEnv installedWorld).1 = Result.returned ∧
    ¬ ModuleEventType.LOADED ∈
        moduleEvents (Module.Start noSymbolAutoloadThrowsEnv installedWorld).2.trace ∧
    ¬ Action.FrameworkEvent FrameworkEventType.ERROR ∈
        (Module.Start noSymbolAutoloadThrowsEnv installedWorld).2.trace := by
  decide

/-- C13: the seven manifest key accessors return `module.id`, `module.name`,
`module.location`, `module.version`, `module.vendor`, `module.description`
and `module.autoload_dir`, and the seven strings are pairwise distinct. -/
theorem Module.PROP_keys :
    Module.PROP_ID = "module.id" ∧
    Module.PROP_NAME = "module.name" ∧
    Module.PROP_LOCATION = "module.location" ∧
    Module.PROP_VERSION = "module.version" ∧
    Module.PROP_VENDOR = "module.vendor" ∧
    Module.PROP_DESCRIPTION = "module.description" ∧
    Module.PROP_AUTOLOAD_DIR = "module.autoload_dir" ∧
    [Module.PROP_ID, Module.PROP_NAME, Module.PROP_LOCATION, Module.PROP_VERSION,
     Module.PROP_VENDOR, Module.PROP_DESCRIPTION, Module.PROP_AUTOLOAD_DIR].Nodup := by
  refine ⟨rfl, rfl, rfl, rfl, rfl, rfl, rfl, ?_⟩
  decide

end us

namespace cppmicroservices

/-! ## The listener table against `FrameworkListenerTest.cpp` -/

/-- The assertions of sections 2 to 6 of `testMultipleListeners` hold of the
listener table: removal by value of the six named listeners succeeds once and
fails for the lambdas and on repetition; removal by token succeeds once;
member functions of one object bound twice cannot be removed by value; named
listeners added twice keep their token. -/
theorem Test.testMultipleListeners_holds :
    (Test.removeAll (Test.addAll ListenerTable.empty Test.nineListeners).2
        [Test.callback_function_1, Test.callback_function_2, Test.l1_memfn1,
         Test.l2_memfn2, Test.cb, Test.bind1, Test.lambda1, Test.lambda2,
         Test.callback_function_1, Test.callback_function_2, Test.l1_memfn1,
         Test.l2_memfn2, Test.cb, Test.bind1]).1
      = [true, true, true, true, true, true, false, false,
         false, false, false, false, false, false] ∧
    ((Test.removeAll (Test.addAll ListenerTable.empty Test.nineListeners).2
        [Test.callback_function_1, Test.callback_function_2, Test.l1_memfn1,
         Test.l2_memfn2, Test.cb, Test.bind1]).2.frameworkListeners.entries.map
          ListenerEntry.callable)
      = [Test.lambda1, Test.lambda2, Test.temporaryFunctor] ∧
    (Test.removeTokens (Test.addAll ListenerTable.empty Test.nineListeners).2
        ((Test.addAll ListenerTable.empty Test.nineListeners).1 ++
         (Test.addAll ListenerTable.empty Test.nineListeners).1)).1
      = List.replicate 9 true ++ List.replicate 9 false ∧
    (Test.removeAll (Test.addAll ListenerTable.empty Test.fourMembers).2
        Test.fourMembers).1
      = [false, false, false, false] ∧
    (Test.removeAll (Test.addAll ListenerTable.empty Test.fourMembers).2
        Test.fourMembers).2.frameworkListeners.entries.length = 4 ∧
    (Test.removeTokens (Test.addAll ListenerTable.empty Test.fourMembers).2
        (Test.addAll ListenerTable.empty Test.fourMembers).1).1
      = [true, true, true, true] ∧
    (Test.addAll ListenerTable.empty Test.section6).1 = [0, 0, 1, 1, 2, 2, 3, 3] ∧
    (Test.addAll ListenerTable.empty Test.section6).2.frameworkListeners.entries.length
      = 4 := by
  decide

/-- Section 7 of `testMultipleListeners` under the rules of section 4.3: the
lambda added twice gets the tokens 0 and 1, as the test asserts; each member
function bound to an object, having the identity `(obj, memfn)`, keeps on its
second addition the token of the first, where the test asserts two different
tokens; six entries are called on `Start`, where the test expects ten calls. -/
theorem Test.section7_under_section_4_3 :
    (Test.addAll ListenerTable.empty Test.section7).1 = [0, 1, 2, 2, 3, 3, 4, 4, 5, 5] ∧
    Test.section7Started.invocations.length = 6 := by
  decide

/-! ## Auxiliary facts about the listener table -/

/-- Reading back the compartment just replaced. -/
theorem ListenerTable.compartment_update_same (t : ListenerTable) (X : ListenerKind)
    (c : Compartment) : (t.update X c).compartment X = c := by
  cases X <;> rfl

/-- Replacing one compartment leaves the others alone. -/
theorem ListenerTable.compartment_update_other (t : ListenerTable) (X Y : ListenerKind)
    (c : Compartment) (h : Y ≠ X) : (t.update X c).compartment Y = t.compartment Y := by
  cases X <;> cases Y <;> first | rfl | exact absurd rfl h

/-- Replacing a compartment by itself changes nothing. -/
theorem ListenerTable.update_compartment_self (t : ListenerTable) (X : ListenerKind) :
    t.update X (t.compartment X) = t := by
  cases X <;> rfl

/-- An entry holds an identity exactly when that is its identity. -/
theorem ListenerEntry.holds_iff (e : ListenerEntry) (i : Identity) :
    e.holds i = true ↔ e.identity = some i := by
  simp [ListenerEntry.holds]

/-- Adding a callable that is merged with an entry returns that entry's token
and leaves the compartment as it is. -/
theorem Compartment.AddListener_of_existing (t : Compartment) (owner : Nat) (c : Callable)
    (e : ListenerEntry) (h : t.existing c = some e) :
    t.AddListener owner c = (e.token, t) := by
  simp [Compartment.AddListener, h]

/-- Adding a callable that is merged with no entry appends an entry with the
next token. -/
theorem Compartment.AddListener_of_fresh (t : Compartment) (owner : Nat) (c : Callable)
    (h : t.existing c = none) :
    t.AddListener owner c =
      (t.nextToken,
        { entries := t.entries ++
            [{ token := t.nextToken, identity := c.identity, callable := c,
               owner_module := owner }],
          nextToken := t.nextToken + 1 }) := by
  simp [Compartment.AddListener, h]

/-- A callable without identity is merged with no entry. -/
theorem Compartment.existing_eq_none (t : Compartment) (c : Callable)
    (h : c.identity = none) : t.existing c = none := by
  simp [Compartment.existing, h]

/-- The empty compartment satisfies the invariant. -/
theorem Compartment.empty_WF : Compartment.empty.WF := by
  simp [Compartment.WF, Compartment.empty]

/-- Filtering the entries keeps the invariant. -/
theorem Compartment.WF_filter (t : Compartment) (p : ListenerEntry → Bool) (h : t.WF) :
    Compartment.WF { t with entries := t.entries.filter p } := by
  obtain ⟨hfresh, hnodup, hmerged⟩ := h
  refine ⟨?_, ?_, ?_⟩
  · intro e he
    exact hfresh e (List.mem_of_mem_filter he)
  · exact hnodup.sublist ((List.filter_sublist t.entries).map ListenerEntry.token)
  · intro e he
    have h1 := hmerged e (List.mem_of_mem_filter he)
    cases hid : e.identity with
    | none => simp
    | some i =>
      rw [hid] at h1
      have h2 := h1
      have h3 : ((t.entries.filter p).filter (fun x => x.holds i)).length
          ≤ (t.entries.filter (fun x => x.holds i)).length := by
        apply List.Sublist.length_le
        simp only [List.filter_filter]
        apply List.monotone_filter_right
        intro a ha
        simp only [Bool.and_eq_true] at ha
        exact ha.1
      exact le_trans h3 h2

/-- `AddXListener` keeps the invariant. -/
theorem Compartment.AddListener_WF (t : Compartment) (owner : Nat) (c : Callable)
    (h : t.WF) : (t.AddListener owner c).2.WF := by
  cases hex : t.existing c with
  | some e => rw [Compartment.AddListener_of_existing t owner c e hex]; exact h
  | none =>
    rw [Compartment.AddListener_of_fresh t owner c hex]
    obtain ⟨hfresh, hnodup, hmerged⟩ := h
    refine ⟨?_, ?_, ?_⟩
    · intro e he
      simp only [List.mem_append, List.mem_singleton] at he
      rcases he with he | he
      · exact Nat.lt_succ_of_lt (hfresh e he)
      · rw [he]; exact Nat.lt_succ_self _
    · simp only [List.map_append, List.map_cons, List.map_nil]
      rw [List.nodup_append]
      refine ⟨hnodup, by simp, ?_⟩
      intro a ha hb
      simp only [List.mem_singleton] at hb
      simp only [List.mem_map] at ha
      obtain ⟨e, he, rfl⟩ := ha
      exact Nat.ne_of_lt (hfresh e he) hb
    · intro e he
      cases hid : e.identity with
      | none => simp
      | some j =>
        simp only
        simp only [List.filter_append, List.length_append]
        by_cases hnew : c.identity = some j
        · have hnone : t.entries.filter (fun x => x.holds j) = [] := by
            rw [List.filter_eq_nil_iff]
            intro x hx hcx
            have hfind : t.entries.find? (fun e => e.holds j) = none := by
              simpa [Compartment.existing, hnew] using hex
            rw [List.find?_eq_none] at hfind
            exact hfind x hx hcx
          rw [hnone]
          simp only [List.length_nil, Nat.zero_add]
          exact List.length_filter_le _ _
        · have hcar : ∀ x : ListenerEntry, x.identity = c.identity →
              x.holds j = false := by
            intro x hx
            rw [Bool.eq_false_iff]
            intro hcx
            rw [ListenerEntry.holds_iff, hx] at hcx
            exact hnew hcx
          rw [List.filter_cons_of_neg (by rw [hcar _ (Eq.refl c.identity)]; simp)]
          simp only [List.filter_nil, List.length_nil, Nat.add_zero]
          simp only [List.mem_append, List.mem_singleton] at he
          rcases he with he | he
          · have h1 := hmerged e he
            rw [hid] at h1
            exact h1
          · rw [he] at hid
            exact absurd hid hnew

/-- `RemoveXListener(callable)` keeps the invariant. -/
theorem Compartment.RemoveListener_WF (t : Compartment) (c : Callable) (h : t.WF) :
    (t.RemoveListener c).2.WF := by
  unfold Compartment.RemoveListener
  cases hid : c.identity with
  | none => exact h
  | some i =>
    simp only
    split
    · exact Compartment.WF_filter t _ h
    · exact h

/-- `RemoveXListener(token)` keeps the invariant. -/
theorem Compartment.RemoveListenerByToken_WF (t : Compartment) (token : Nat) (h : t.WF) :
    (t.RemoveListenerByToken token).2.WF := by
  unfold Compartment.RemoveListenerByToken
  split
  · exact Compartment.WF_filter t _ h
  · exact h

/-- The merge candidate of a callable that yields an identity is the first
entry holding that identity. -/
theorem Compartment.existing_of_identity (t : Compartment) (c : Callable) (i : Identity)
    (hid : c.identity = some i) :
    t.existing c = t.entries.find? (fun e => e.holds i) := by
  simp [Compartment.existing, hid]

/-- Adding twice a callable that yields an identity: the second addition
returns the token of the first and changes nothing, and one entry holds the
identity. -/
theorem Compartment.AddListener_twice (t : Compartment) (owner owner2 : Nat)
    (c : Callable) (i : Identity)
    (hwf : t.WF) (hid : c.identity = some i) :
    (t.AddListener owner c).2.AddListener owner2 c
      = ((t.AddListener owner c).1, (t.AddListener owner c).2) ∧
    ((t.AddListener owner c).2.entries.filter (fun e => e.holds i)).length = 1 ∧
    ∃ e ∈ (t.AddListener owner c).2.entries,
      e.token = (t.AddListener owner c).1 ∧ e.identity = some i := by
  cases hex : t.existing c with
  | some e =>
    rw [Compartment.AddListener_of_existing t owner c e hex]
    simp only
    rw [Compartment.AddListener_of_existing t owner2 c e hex]
    rw [Compartment.existing_of_identity t c i hid] at hex
    have hmem : e ∈ t.entries := List.mem_of_find?_eq_some hex
    have hcar0 := List.find?_some hex
    have hcar : e.holds i = true := hcar0
    have heid : e.identity = some i := (ListenerEntry.holds_iff e i).1 hcar
    refine ⟨rfl, ?_, e, hmem, rfl, heid⟩
    have hle := hwf.2.2 e hmem
    rw [heid] at hle
    have hpos : 0 < (t.entries.filter (fun x => x.holds i)).length :=
      List.length_pos_of_mem (List.mem_filter.2 ⟨hmem, hcar⟩)
    exact Nat.le_antisymm hle hpos
  | none =>
    rw [Compartment.AddListener_of_fresh t owner c hex]
    simp only
    rw [Compartment.existing_of_identity t c i hid] at hex
    have hself : ListenerEntry.holds
        { token := t.nextToken, identity := c.identity, callable := c,
          owner_module := owner } i = true := by
      rw [ListenerEntry.holds_iff]
      exact hid
    have hnil : t.entries.filter (fun e => e.holds i) = [] := by
      rw [List.filter_eq_nil_iff]
      exact List.find?_eq_none.1 hex
    refine ⟨?_, ?_,
      { token := t.nextToken, identity := c.identity, callable := c,
        owner_module := owner }, by simp, rfl, hid⟩
    · exact Compartment.AddListener_of_existing
        { entries := t.entries ++
            [{ token := t.nextToken, identity := c.identity, callable := c,
               owner_module := owner }],
          nextToken := t.nextToken + 1 } owner2 c
        { token := t.nextToken, identity := c.identity, callable := c,
          owner_module := owner }
        (by rw [Compartment.existing_of_identity _ c i hid]
            simp [List.find?_append, hex, List.find?_cons, hself])
    · simp [List.filter_append, hnil, List.filter_cons, hself]

/-- The token `AddXListener` returns is held afterwards by an entry with the
identity of the callable. -/
theorem Compartment.AddListener_token_mem (t : Compartment) (owner : Nat) (c : Callable) :
    ∃ e ∈ (t.AddListener owner c).2.entries,
      e.token = (t.AddListener owner c).1 ∧ e.identity = c.identity := by
  cases hex : t.existing c with
  | some e =>
    rw [Compartment.AddListener_of_existing t owner c e hex]
    cases hid : c.identity with
    | none => simp [Compartment.existing, hid] at hex
    | some i =>
      rw [Compartment.existing_of_identity t c i hid] at hex
      have hcar0 := List.find?_some hex
      have hcar : e.holds i = true := hcar0
      exact ⟨e, List.mem_of_find?_eq_some hex, rfl, (ListenerEntry.holds_iff e i).1 hcar⟩
  | none =>
    rw [Compartment.AddListener_of_fresh t owner c hex]
    exact ⟨{ token := t.nextToken, identity := c.identity, callable := c,
             owner_module := owner }, by simp, rfl, rfl⟩

/-- The token `AddXListener` returns has been issued afterwards. -/
theorem Compartment.AddListener_token_lt (t : Compartment) (owner : Nat) (c : Callable)
    (hwf : t.WF) : (t.AddListener owner c).1 < (t.AddListener owner c).2.nextToken := by
  obtain ⟨e, he, h, _⟩ := Compartment.AddListener_token_mem t owner c
  exact h ▸ (Compartment.AddListener_WF t owner c hwf).1 e he

/-- Removal by token when an entry holds the token. -/
theorem Compartment.RemoveListenerByToken_of_mem (t : Compartment) (k : Nat)
    (h : ∃ e ∈ t.entries, e.token = k) :
    t.RemoveListenerByToken k
      = (true, { t with entries := t.entries.filter (fun e => e.token != k) }) := by
  have hany : t.entries.any (fun e => e.token == k) = true := by
    simpa using h
  simp [Compartment.RemoveListenerByToken, hany]

/-- Removal by token when no entry holds the token. -/
theorem Compartment.RemoveListenerByToken_of_not_mem (t : Compartment) (k : Nat)
    (h : ∀ e ∈ t.entries, e.token ≠ k) :
    t.RemoveListenerByToken k = (false, t) := by
  have hany : t.entries.any (fun e => e.token == k) = false := by
    simpa using h
  simp [Compartment.RemoveListenerByToken, hany]

/-- With pairwise distinct tokens, dropping the entries that hold a token in
use drops one entry. -/
theorem ListenerEntry.length_filter_token (l : List ListenerEntry) (k : Nat)
    (hnd : (l.map ListenerEntry.token).Nodup) (hmem : ∃ e ∈ l, e.token = k) :
    (l.filter (fun e => e.token != k)).length + 1 = l.length := by
  induction l with
  | nil => simp at hmem
  | cons a l ih =>
    simp only [List.map_cons, List.nodup_cons] at hnd
    by_cases ha : a.token = k
    · have hall : l.filter (fun e => e.token != k) = l := by
        rw [List.filter_eq_self]
        intro e he
        have : e.token ≠ k := fun h =>
          hnd.1 (ha ▸ h ▸ List.mem_map_of_mem ListenerEntry.token he)
        simpa using this
      simp [List.filter_cons, ha, hall]
    · have hmem2 : ∃ e ∈ l, e.token = k := by
        obtain ⟨e, he, hk⟩ := hmem
        simp only [List.mem_cons] at he
        rcases he with he | he
        · exact absurd (he ▸ hk) ha
        · exact ⟨e, he, hk⟩
      simp [List.filter_cons, ha, ih hnd.2 hmem2]

/-- Removing an issued token from a compartment retires it. -/
theorem Compartment.RemoveListenerByToken_retired (t : Compartment) (k : Nat)
    (hwf : t.WF) (hk : k < t.nextToken) : (t.RemoveListenerByToken k).2.retired k := by
  unfold Compartment.RemoveListenerByToken
  split
  · refine ⟨?_, hk⟩
    intro e he
    simp only [List.mem_filter] at he
    exact ⟨hwf.1 e he.1, by simpa using he.2⟩
  · rename_i hany
    refine ⟨?_, hk⟩
    intro e he
    have : ∀ x ∈ t.entries, x.token ≠ k := by simpa using hany
    exact ⟨hwf.1 e he, this e he⟩

/-- `AddXListener` never hands out a retired token again. -/
theorem Compartment.AddListener_retired (t : Compartment) (owner : Nat) (c : Callable)
    (k : Nat) (h : t.retired k) : (t.AddListener owner c).2.retired k := by
  cases hex : t.existing c with
  | some e => rw [Compartment.AddListener_of_existing t owner c e hex]; exact h
  | none =>
    rw [Compartment.AddListener_of_fresh t owner c hex]
    refine ⟨?_, Nat.lt_succ_of_lt h.2⟩
    intro e he
    simp only [List.mem_append, List.mem_singleton] at he
    rcases he with he | he
    · exact ⟨Nat.lt_succ_of_lt (h.1 e he).1, (h.1 e he).2⟩
    · rw [he]
      exact ⟨Nat.lt_succ_self _, Nat.ne_of_gt h.2⟩

/-- Filtering the entries keeps a token retired. -/
theorem Compartment.retired_filter (t : Compartment) (p : ListenerEntry → Bool) (k : Nat)
    (h : t.retired k) : Compartment.retired { t with entries := t.entries.filter p } k :=
  ⟨fun e he => h.1 e (List.mem_of_mem_filter he), h.2⟩

/-- `RemoveXListener(callable)` keeps a token retired. -/
theorem Compartment.RemoveListener_retired (t : Compartment) (c : Callable) (k : Nat)
    (h : t.retired k) : (t.RemoveListener c).2.retired k := by
  unfold Compartment.RemoveListener
  cases hid : c.identity with
  | none => exact h
  | some i =>
    simp only
    split
    · exact Compartment.retired_filter t _ k h
    · exact h

/-- `RemoveXListener(token)` keeps a token retired. -/
theorem Compartment.RemoveListenerByToken_keeps_retired (t : Compartment) (token k : Nat)
    (h : t.retired k) : (t.RemoveListenerByToken token).2.retired k := by
  unfold Compartment.RemoveListenerByToken
  split
  · exact Compartment.retired_filter t _ k h
  · exact h

/-- No call on the table brings a retired token back. -/
theorem ListenerTable.apply_retired (t : ListenerTable) (X : ListenerKind) (k : Nat)
    (op : ListenerOp) (h : (t.compartment X).retired k) :
    ((t.apply op).compartment X).retired k := by
  cases op with
  | add Y owner c =>
    by_cases hY : X = Y
    · subst hY
      simp only [ListenerTable.apply, ListenerTable.AddXListener,
        ListenerTable.compartment_update_same]
      exact Compartment.AddListener_retired _ owner c k h
    · simp only [ListenerTable.apply, ListenerTable.AddXListener]
      rw [ListenerTable.compartment_update_other _ Y X _ hY]
      exact h
  | remove Y c =>
    by_cases hY : X = Y
    · subst hY
      simp only [ListenerTable.apply, ListenerTable.RemoveXListener,
        ListenerTable.compartment_update_same]
      exact Compartment.RemoveListener_retired _ c k h
    · simp only [ListenerTable.apply, ListenerTable.RemoveXListener]
      rw [ListenerTable.compartment_update_other _ Y X _ hY]
      exact h
  | removeToken Y token =>
    by_cases hY : X = Y
    · subst hY
      simp only [ListenerTable.apply, ListenerTable.RemoveXListenerByToken,
        ListenerTable.compartment_update_same]
      exact Compartment.RemoveListenerByToken_keeps_retired _ token k h
    · simp only [ListenerTable.apply, ListenerTable.RemoveXListenerByToken]
      rw [ListenerTable.compartment_update_other _ Y X _ hY]
      exact h

/-- No sequence of calls on the table brings a retired token back. -/
theorem ListenerTable.run_retired (ops : List ListenerOp) (t : ListenerTable)
    (X : ListenerKind) (k : Nat) (h : (t.compartment X).retired k) :
    ((t.run ops).compartment X).retired k := by
  induction ops generalizing t with
  | nil => exact h
  | cons op ops ih =>
    simp only [ListenerTable.run, List.foldl_cons]
    exact ih (t.apply op) (ListenerTable.apply_retired t X k op h)

/-- Every call on the table keeps the invariant of every compartment. -/
theorem ListenerTable.apply_WF (t : ListenerTable) (op : ListenerOp)
    (h : ∀ X, (t.compartment X).WF) : ∀ X, ((t.apply op).compartment X).WF := by
  intro X
  cases op with
  | add Y owner c =>
    by_cases hY : X = Y
    · subst hY
      simp only [ListenerTable.apply, ListenerTable.AddXListener,
        ListenerTable.compartment_update_same]
      exact Compartment.AddListener_WF _ owner c (h X)
    · simp only [ListenerTable.apply, ListenerTable.AddXListener]
      rw [ListenerTable.compartment_update_other _ Y X _ hY]
      exact h X
  | remove Y c =>
    by_cases hY : X = Y
    · subst hY
      simp only [ListenerTable.apply, ListenerTable.RemoveXListener,
        ListenerTable.compartment_update_same]
      exact Compartment.RemoveListener_WF _ c (h X)
    · simp only [ListenerTable.apply, ListenerTable.RemoveXListener]
      rw [ListenerTable.compartment_update_other _ Y X _ hY]
      exact h X
  | removeToken Y token =>
    by_cases hY : X = Y
    · subst hY
      simp only [ListenerTable.apply, ListenerTable.RemoveXListenerByToken,
        ListenerTable.compartment_update_same]
      exact Compartment.RemoveListenerByToken_WF _ token (h X)
    · simp only [ListenerTable.apply, ListenerTable.RemoveXListenerByToken]
      rw [ListenerTable.compartment_update_other _ Y X _ hY]
      exact h X

/-- Every table built from the empty one by calls on it satisfies the invariant
in every compartment. -/
theorem ListenerTable.run_empty_WF (ops : List ListenerOp) (X : ListenerKind) :
    ((ListenerTable.empty.run ops).compartment X).WF := by
  have hgen : ∀ (ops : List ListenerOp) (t : ListenerTable),
      (∀ X, (t.compartment X).WF) → ∀ X, ((t.run ops).compartment X).WF := by
    intro ops
    induction ops with
    | nil => intro t h; exact h
    | cons op ops ih =>
      intro t h
      simp only [ListenerTable.run, List.foldl_cons]
      exact ih (t.apply op) (ListenerTable.apply_WF t op h)
  apply hgen ops ListenerTable.empty
  intro Y
  cases Y <;> exact Compartment.empty_WF

/-- Calling the listeners of a list of entries in order: each is called once
with the event, each throw adds its log line, nothing else changes. -/
theorem Framework.foldl_invoke (behaviour : ListenerBehaviour) (evt : FrameworkEvent)
    (l : List ListenerEntry) (fw : Framework) :
    l.foldl (Framework.invoke behaviour evt) fw =
      { fw with
        invocations := fw.invocations ++ l.map (ListenerEntry.invokedWith evt),
        sink := fw.sink ++ thrownLines behaviour evt l } := by
  induction l generalizing fw with
  | nil => simp [thrownLines]
  | cons e l ih =>
    simp only [List.foldl_cons]
    rw [ih]
    cases hb : behaviour e.callable evt with
    | returns u =>
      simp [Framework.invoke, hb, thrownLines, ListenerEntry.invokedWith]
    | throws x =>
      simp [Framework.invoke, hb, thrownLines, ListenerEntry.invokedWith]

/-- The whole effect of dispatching one framework event. -/
theorem Framework.DispatchFrameworkEvent_eq (behaviour : ListenerBehaviour)
    (fw : Framework) (evt : FrameworkEvent) :
    Framework.DispatchFrameworkEvent behaviour fw evt =
      { fw with
        invocations := fw.invocations ++
          fw.listeners.frameworkListeners.entries.map (ListenerEntry.invokedWith evt),
        sink := fw.sink ++
          thrownLines behaviour evt fw.listeners.frameworkListeners.entries } := by
  unfold Framework.DispatchFrameworkEvent
  rw [Framework.foldl_invoke]

/-- With pairwise distinct tokens, one entry holds the token of an entry. -/
theorem ListenerEntry.length_filter_token_eq (l : List ListenerEntry) (e : ListenerEntry)
    (hnd : (l.map ListenerEntry.token).Nodup) (hmem : e ∈ l) :
    (l.filter (fun x => x.token == e.token)).length = 1 := by
  have h1 := ListenerEntry.length_filter_token l e.token hnd ⟨e, hmem, rfl⟩
  have h2 : (l.filter (fun x => x.token == e.token)).length
      + (l.filter (fun x => x.token != e.token)).length = l.length := by
    clear h1 hnd hmem
    induction l with
    | nil => rfl
    | cons a l ih =>
      by_cases ha : a.token = e.token
      · simp [List.filter_cons, ha] at ih ⊢
        omega
      · simp [List.filter_cons, ha] at ih ⊢
        omega
  omega

/-- Every line written for a throwing listener starts with the words of the
dispatcher. -/
theorem thrownLines_start (behaviour : ListenerBehaviour) (evt : FrameworkEvent)
    (l : List ListenerEntry) :
    ∀ line ∈ thrownLines behaviour evt l,
      ∃ rest, line = "A Framework Listener threw an exception:" ++ rest := by
  intro line hline
  simp only [thrownLines, List.mem_filterMap] at hline
  obtain ⟨e, _, he⟩ := hline
  cases hb : behaviour e.callable evt with
  | returns u => simp [hb] at he
  | throws x =>
    simp only [hb, Option.some.injEq] at he
    refine ⟨" " ++ x.what, ?_⟩
    rw [← he]
    unfold frameworkListenerThrew
    exact String.append_assoc _ _ _

/-- The line of a throwing listener is among the lines written. -/
theorem thrownLines_mem (behaviour : ListenerBehaviour) (evt : FrameworkEvent)
    (l : List ListenerEntry) (e : ListenerEntry) (x : us.Exn) (he : e ∈ l)
    (hthrow : behaviour e.callable evt = us.Call.throws x) :
    frameworkListenerThrew x ∈ thrownLines behaviour evt l := by
  simp only [thrownLines, List.mem_filterMap]
  exact ⟨e, he, by simp [hthrow]⟩

/-- A list with two different members has at least two members. -/
theorem ListenerEntry.two_le_length (l : List ListenerEntry) (a b : ListenerEntry)
    (ha : a ∈ l) (hb : b ∈ l) (hab : a ≠ b) : 2 ≤ l.length := by
  match l, ha, hb with
  | [x], ha, hb =>
    simp only [List.mem_singleton] at ha hb
    exact absurd (ha.trans hb.symm) hab
  | _ :: _ :: _, _, _ => simp

/-! ## Theorems about the listener table -/

/-- C14: in every compartment that satisfies the table invariant, adding twice
a callable that has an identity - a free function pointer, a named functor
object, a member function bound to an object, or a bound callable wrapping one
of them - returns the same token both times, the second addition changes
nothing, and the compartment holds a single entry with that identity, the one
with the returned token. -/
theorem ListenerTable.AddXListener_twice_same_token (t : ListenerTable)
    (X : ListenerKind) (owner owner2 : Nat) (L : Callable) (i : Identity)
    (hwf : (t.compartment X).WF)
    (hid : L.identity = some i) :
    ((t.AddXListener X owner L).2.AddXListener X owner2 L).1
      = (t.AddXListener X owner L).1 ∧
    ((t.AddXListener X owner L).2.AddXListener X owner2 L).2
      = (t.AddXListener X owner L).2 ∧
    ((((t.AddXListener X owner L).2.AddXListener X owner2 L).2.compartment X).entries.filter
      (fun e => e.holds i)).length = 1 ∧
    ∃ e ∈ (((t.AddXListener X owner L).2.AddXListener X owner2 L).2.compartment X).entries,
      e.token = (t.AddXListener X owner L).1 ∧ e.identity = some i := by
  obtain ⟨h2, hlen, e, he, htok, heid⟩ :=
    Compartment.AddListener_twice (t.compartment X) owner owner2 L i hwf hid
  have hsecond : ((t.AddXListener X owner L).2.AddXListener X owner2 L)
      = ((t.AddXListener X owner L).1, (t.AddXListener X owner L).2) := by
    simp only [ListenerTable.AddXListener, ListenerTable.compartment_update_same, h2]
    rw [Prod.mk.injEq]
    refine ⟨rfl, ?_⟩
    have h3 := ListenerTable.update_compartment_self
      (t.update X ((t.compartment X).AddListener owner L).2) X
    rw [ListenerTable.compartment_update_same] at h3
    exact h3
  rw [hsecond]
  refine ⟨rfl, rfl, ?_, ?_⟩
  · simp only [ListenerTable.AddXListener, ListenerTable.compartment_update_same]
    exact hlen
  · simp only [ListenerTable.AddXListener, ListenerTable.compartment_update_same]
    exact ⟨e, he, htok, heid⟩

/-- C14 on a table that holds `(&l1, &Listener::memfn2)`: a bound callable
wrapping `(&l1, &Listener::memfn1)`, added twice to the framework compartment,
gets token 1 both times and one entry, so that the compartment has two
entries; the functor object `cb` added twice to the empty table gets token 0
both times. -/
theorem ListenerTable.AddXListener_twice_same_token_witness :
    (((ListenerTable.empty.run
        [ListenerOp.add ListenerKind.framework 0 Test.l1_memfn2]).AddXListener
          ListenerKind.framework 0 (Callable.bound Test.l1_memfn1)).2.AddXListener
            ListenerKind.framework 0 (Callable.bound Test.l1_memfn1)).1
      = ((ListenerTable.empty.run
          [ListenerOp.add ListenerKind.framework 0 Test.l1_memfn2]).AddXListener
            ListenerKind.framework 0 (Callable.bound Test.l1_memfn1)).1 ∧
    (Test.addAll
      (ListenerTable.empty.run [ListenerOp.add ListenerKind.framework 0 Test.l1_memfn2])
      [Callable.bound Test.l1_memfn1, Callable.bound Test.l1_memfn1]).1 = [1, 1] ∧
    (Test.addAll
      (ListenerTable.empty.run [ListenerOp.add ListenerKind.framework 0 Test.l1_memfn2])
      [Callable.bound Test.l1_memfn1, Callable.bound Test.l1_memfn1]
        ).2.frameworkListeners.entries.length = 2 ∧
    (Test.addAll ListenerTable.empty [Test.cb, Test.cb]).1 = [0, 0] :=
  have h := ListenerTable.AddXListener_twice_same_token
    (ListenerTable.empty.run [ListenerOp.add ListenerKind.framework 0 Test.l1_memfn2])
    ListenerKind.framework 0 0 (Callable.bound Test.l1_memfn1) (Identity.member 11 1)
    (ListenerTable.run_empty_WF _ ListenerKind.framework) rfl
  ⟨h.1, by decide, by decide, by decide⟩

/-- C15: in every compartment, adding twice a callable without identity returns
two different tokens, the next token and the one after it, and appends two
entries for it; nothing is merged. -/
theorem ListenerTable.AddXListener_twice_two_tokens (t : ListenerTable)
    (X : ListenerKind) (owner owner2 : Nat) (L : Callable)
    (hid : L.identity = none) :
    (t.AddXListener X owner L).1 = (t.compartment X).nextToken ∧
    ((t.AddXListener X owner L).2.AddXListener X owner2 L).1
      = (t.compartment X).nextToken + 1 ∧
    (t.AddXListener X owner L).1
      ≠ ((t.AddXListener X owner L).2.AddXListener X owner2 L).1 ∧
    (((t.AddXListener X owner L).2.AddXListener X owner2 L).2.compartment X).entries
      = (t.compartment X).entries ++
        [{ token := (t.compartment X).nextToken, identity := none, callable := L,
           owner_module := owner },
         { token := (t.compartment X).nextToken + 1, identity := none, callable := L,
           owner_module := owner2 }] := by
  have hfresh : ∀ c : Compartment, c.existing L = none :=
    fun c => Compartment.existing_eq_none c L hid
  simp only [ListenerTable.AddXListener, ListenerTable.compartment_update_same]
  rw [Compartment.AddListener_of_fresh _ owner L (hfresh _)]
  simp only
  rw [Compartment.AddListener_of_fresh _ owner2 L (hfresh _)]
  simp [hid]

/-- C15 at the empty table: the lambda `lambda3` added twice gets tokens 0 and 1
and two entries. -/
theorem ListenerTable.AddXListener_twice_two_tokens_witness :
    (ListenerTable.empty.AddXListener ListenerKind.framework 0 Test.lambda3).1 = 0 ∧
    ((ListenerTable.empty.AddXListener ListenerKind.framework 0 Test.lambda3).2.AddXListener
        ListenerKind.framework 0 Test.lambda3).1 = 1 ∧
    ((ListenerTable.empty.AddXListener ListenerKind.framework 0 Test.lambda3).2.AddXListener
        ListenerKind.framework 0 Test.lambda3).2.frameworkListeners.entries.length = 2 :=
  have h := ListenerTable.AddXListener_twice_two_tokens ListenerTable.empty
    ListenerKind.framework 0 0 Test.lambda3 rfl
  ⟨h.1, h.2.1, by decide⟩

/-- C16: in every compartment that satisfies the table invariant and for every
callable, the token returned by adding it is removed once: the first removal
by token returns true and drops the one entry with that token, every later
removal of the token returns false whatever calls are made on the table in
between, and a removal by token returns true exactly when it makes the
compartment shorter. -/
theorem ListenerTable.RemoveXListenerByToken_once (t : ListenerTable)
    (X : ListenerKind) (owner : Nat) (c : Callable)
    (hwf : (t.compartment X).WF) :
    ((t.AddXListener X owner c).2.RemoveXListenerByToken X
        (t.AddXListener X owner c).1).1 = true ∧
    (((t.AddXListener X owner c).2.RemoveXListenerByToken X
        (t.AddXListener X owner c).1).2.compartment X).entries
      = ((t.AddXListener X owner c).2.compartment X).entries.filter
          (fun e => e.token != (t.AddXListener X owner c).1) ∧
    (((t.AddXListener X owner c).2.RemoveXListenerByToken X
        (t.AddXListener X owner c).1).2.compartment X).entries.length + 1
      = ((t.AddXListener X owner c).2.compartment X).entries.length ∧
    (∀ ops : List ListenerOp,
      ((((t.AddXListener X owner c).2.RemoveXListenerByToken X
          (t.AddXListener X owner c).1).2.run ops).RemoveXListenerByToken X
            (t.AddXListener X owner c).1).1 = false) ∧
    ∀ (u : ListenerTable) (k : Nat),
      (u.RemoveXListenerByToken X k).1 = true ↔
        ((u.RemoveXListenerByToken X k).2.compartment X).entries.length
          < (u.compartment X).entries.length := by
  have hwf1 := Compartment.AddListener_WF (t.compartment X) owner c hwf
  obtain ⟨e, he, htok, _⟩ := Compartment.AddListener_token_mem (t.compartment X) owner c
  have hlt := Compartment.AddListener_token_lt (t.compartment X) owner c hwf
  have hrem := Compartment.RemoveListenerByToken_of_mem
    ((t.compartment X).AddListener owner c).2 ((t.compartment X).AddListener owner c).1
    ⟨e, he, htok⟩
  have hret := Compartment.RemoveListenerByToken_retired
    ((t.compartment X).AddListener owner c).2 ((t.compartment X).AddListener owner c).1
    hwf1 hlt
  simp only [ListenerTable.AddXListener, ListenerTable.RemoveXListenerByToken,
    ListenerTable.compartment_update_same]
  refine ⟨by rw [hrem], by rw [hrem], ?_, ?_, ?_⟩
  · rw [hrem]
    exact ListenerEntry.length_filter_token _ _ hwf1.2.1 ⟨e, he, htok⟩
  · intro ops
    have hrun := ListenerTable.run_retired ops
      ((t.update X ((t.compartment X).AddListener owner c).2).update X
        (((t.compartment X).AddListener owner c).2.RemoveListenerByToken
          ((t.compartment X).AddListener owner c).1).2)
      X ((t.compartment X).AddListener owner c).1
      (by rw [ListenerTable.compartment_update_same]; exact hret)
    rw [Compartment.RemoveListenerByToken_of_not_mem _ _ (fun x hx => (hrun.1 x hx).2)]
  · intro u k
    by_cases hk : ∃ x ∈ (u.compartment X).entries, x.token = k
    · rw [Compartment.RemoveListenerByToken_of_mem _ k hk]
      simp only [true_iff]
      rw [List.length_filter_lt_length_iff_exists]
      obtain ⟨x, hx, hxk⟩ := hk
      exact ⟨x, hx, by simp [hxk]⟩
    · have hk2 : ∀ x ∈ (u.compartment X).entries, x.token ≠ k :=
        fun x hx hxk => hk ⟨x, hx, hxk⟩
      rw [Compartment.RemoveListenerByToken_of_not_mem _ k hk2]
      simp

/-- C16 at the empty table: the token of the lambda `lambda1` is removed once,
and not a second time. -/
theorem ListenerTable.RemoveXListenerByToken_once_witness :
    ((ListenerTable.empty.AddXListener ListenerKind.framework 0
        Test.lambda1).2.RemoveXListenerByToken ListenerKind.framework
          (ListenerTable.empty.AddXListener ListenerKind.framework 0 Test.lambda1).1).1
      = true ∧
    ((((ListenerTable.empty.AddXListener ListenerKind.framework 0
        Test.lambda1).2.RemoveXListenerByToken ListenerKind.framework
          (ListenerTable.empty.AddXListener ListenerKind.framework 0
            Test.lambda1).1).2.run []).RemoveXListenerByToken ListenerKind.framework
              (ListenerTable.empty.AddXListener ListenerKind.framework 0 Test.lambda1).1).1
      = false :=
  have h := ListenerTable.RemoveXListenerByToken_once ListenerTable.empty
    ListenerKind.framework 0 Test.lambda1 Compartment.empty_WF
  ⟨h.1, h.2.2.2.1 []⟩

/-- Removal by value when the callable has an identity that one entry
carries. -/
theorem Compartment.RemoveListener_of_one (t : Compartment) (c : Callable) (i : Identity)
    (hid : c.identity = some i)
    (h : (t.entries.filter (fun e => e.carries i)).length = 1) :
    t.RemoveListener c
      = (true, { t with entries := t.entries.filter (fun e => !e.carries i) }) := by
  simp [Compartment.RemoveListener, hid, h]

/-- Removal by value when the callable has an identity that no entry or several
entries carry. -/
theorem Compartment.RemoveListener_of_not_one (t : Compartment) (c : Callable)
    (i : Identity) (hid : c.identity = some i)
    (h : (t.entries.filter (fun e => e.carries i)).length ≠ 1) :
    t.RemoveListener c = (false, t) := by
  simp [Compartment.RemoveListener, hid, h]

/-- Removal by value of a callable without identity. -/
theorem Compartment.RemoveListener_of_none (t : Compartment) (c : Callable)
    (hid : c.identity = none) : t.RemoveListener c = (false, t) := by
  simp [Compartment.RemoveListener, hid]

/-- C17: for every table, compartment and callable, removal by value returns
true exactly when the callable has an identity that exactly one entry of the
compartment carries, and then that entry is the one dropped; when it returns
false the table is unchanged; it returns false for a callable without
identity, when no entry carries the identity, on a repetition, and for a
member function of an object that two entries bind to two different member
functions. -/
theorem ListenerTable.RemoveXListener_by_value (t : ListenerTable) (X : ListenerKind)
    (c : Callable) :
    ((t.RemoveXListener X c).1 = true ↔
      ∃ i, c.identity = some i ∧
        ((t.compartment X).entries.filter (fun e => e.carries i)).length = 1) ∧
    (∀ i, c.identity = some i → (t.RemoveXListener X c).1 = true →
      ((t.RemoveXListener X c).2.compartment X).entries
        = (t.compartment X).entries.filter (fun e => !e.carries i) ∧
      ((t.RemoveXListener X c).2.compartment X).entries.length + 1
        = (t.compartment X).entries.length) ∧
    ((t.RemoveXListener X c).1 = false → (t.RemoveXListener X c).2 = t) ∧
    (c.identity = none → (t.RemoveXListener X c).1 = false) ∧
    (∀ i, c.identity = some i →
      (∀ e ∈ (t.compartment X).entries, e.carries i = false) →
      (t.RemoveXListener X c).1 = false) ∧
    ((t.RemoveXListener X c).2.RemoveXListener X c).1 = false ∧
    (∀ (obj m1 m2 memfn : Nat) (e1 e2 : ListenerEntry),
      c = Callable.memberFunction obj memfn →
      e1 ∈ (t.compartment X).entries → e2 ∈ (t.compartment X).entries →
      e1.identity = some (Identity.member obj m1) →
      e2.identity = some (Identity.member obj m2) → m1 ≠ m2 →
      (t.RemoveXListener X c).1 = false) := by
  have hsplit : ∀ (l : List ListenerEntry) (i : Identity),
      (l.filter (fun e => e.carries i)).length + (l.filter (fun e => !e.carries i)).length
        = l.length := by
    intro l i
    induction l with
    | nil => rfl
    | cons a l ih =>
      cases ha : a.carries i <;> simp [List.filter_cons, ha] at ih ⊢ <;> omega
  simp only [ListenerTable.RemoveXListener, ListenerTable.compartment_update_same]
  cases hid : c.identity with
  | none =>
    rw [Compartment.RemoveListener_of_none _ c hid]
    simp only [ListenerTable.update_compartment_self]
    rw [Compartment.RemoveListener_of_none _ c hid]
    simp
  | some i =>
    by_cases hone : ((t.compartment X).entries.filter (fun e => e.carries i)).length = 1
    · rw [Compartment.RemoveListener_of_one _ c i hid hone]
      simp only [ListenerTable.compartment_update_same]
      have hgone : ((t.compartment X).entries.filter (fun e => !e.carries i)).filter
          (fun e => e.carries i) = [] := by
        rw [List.filter_eq_nil_iff]
        intro a ha
        simp only [List.mem_filter, Bool.not_eq_true'] at ha
        simp [ha.2]
      have hagain := Compartment.RemoveListener_of_not_one
        { (t.compartment X) with
          entries := (t.compartment X).entries.filter (fun e => !e.carries i) } c i hid
        (by simp [hgone])
      refine ⟨?_, ?_, ?_, ?_, ?_, ?_, ?_⟩
      · simp only [true_iff]
        exact ⟨i, rfl, hone⟩
      · intro j hj _
        cases hj
        refine ⟨rfl, ?_⟩
        have := hsplit (t.compartment X).entries i
        simp only at this ⊢
        omega
      · intro h; cases h
      · intro h; cases h
      · intro j hj hnone
        cases hj
        have hnil : (t.compartment X).entries.filter (fun e => e.carries i) = [] := by
          rw [List.filter_eq_nil_iff]
          intro a ha
          simp [hnone a ha]
        rw [hnil] at hone
        cases hone
      · rw [hagain]
      · intro obj m1 m2 memfn e1 e2 hc h1 h2 hi1 hi2 hm
        rw [hc] at hid
        simp only [Callable.identity, Option.some.injEq] at hid
        have hc1 : e1.carries i = true := by
          simp [ListenerEntry.carries, hi1, ← hid, Identity.shares]
        have hc2 : e2.carries i = true := by
          simp [ListenerEntry.carries, hi2, ← hid, Identity.shares]
        have hne : e1 ≠ e2 := by
          intro h
          rw [h, hi2] at hi1
          simp only [Option.some.injEq, Identity.member.injEq] at hi1
          exact hm hi1.2.symm
        have hm1 : e1 ∈ (t.compartment X).entries.filter (fun e => e.carries i) :=
          List.mem_filter.2 ⟨h1, hc1⟩
        have hm2 : e2 ∈ (t.compartment X).entries.filter (fun e => e.carries i) :=
          List.mem_filter.2 ⟨h2, hc2⟩
        have := ListenerEntry.two_le_length _ e1 e2 hm1 hm2 hne
        omega
    · rw [Compartment.RemoveListener_of_not_one _ c i hid hone]
      simp only [ListenerTable.update_compartment_self]
      rw [Compartment.RemoveListener_of_not_one _ c i hid hone]
      refine ⟨?_, ?_, ?_, ?_, ?_, rfl, ?_⟩
      · simp only [Bool.false_eq_true, false_iff]
        rintro ⟨j, hj, hlen⟩
        cases hj
        exact hone hlen
      · intro j _ h; cases h
      · intro _; first | rfl | trivial
      · intro h; cases h
      · intro _ _ _; first | rfl | trivial
      · intro _ _ _ _ _ _ _ _ _ _ _ _; first | rfl | trivial

/-- C17 at the tables of `testMultipleListeners`: with the nine listeners of
section 2, `cb` is removed by value once and `lambda1` is not; with the four
member-function listeners of section 4, `(&l1, &Listener::memfn1)` is not. -/
theorem ListenerTable.RemoveXListener_by_value_witness :
    ((Test.addAll ListenerTable.empty Test.nineListeners).2.RemoveXListener
        ListenerKind.framework Test.cb).1 = true ∧
    (((Test.addAll ListenerTable.empty Test.nineListeners).2.RemoveXListener
        ListenerKind.framework Test.cb).2.RemoveXListener ListenerKind.framework Test.cb).1
      = false ∧
    ((Test.addAll ListenerTable.empty Test.nineListeners).2.RemoveXListener
        ListenerKind.framework Test.lambda1).1 = false ∧
    ((Test.addAll ListenerTable.empty Test.fourMembers).2.RemoveXListener
        ListenerKind.framework Test.l1_memfn1).1 = false :=
  ⟨by decide,
   (ListenerTable.RemoveXListener_by_value
      (Test.addAll ListenerTable.empty Test.nineListeners).2
      ListenerKind.framework Test.cb).2.2.2.2.2.1,
   (ListenerTable.RemoveXListener_by_value
      (Test.addAll ListenerTable.empty Test.nineListeners).2
      ListenerKind.framework Test.lambda1).2.2.2.1 rfl,
   (ListenerTable.RemoveXListener_by_value
      (Test.addAll ListenerTable.empty Test.fourMembers).2
      ListenerKind.framework Test.l1_memfn1).2.2.2.2.2.2 11 1 2 1
      { token := 0, identity := some (Identity.member 11 1), callable := Test.l1_memfn1,
        owner_module := 0 }
      { token := 1, identity := some (Identity.member 11 2), callable := Test.l1_memfn2,
        owner_module := 0 }
      rfl (by decide) (by decide) rfl rfl (by decide)⟩

/-- The calls made by dispatching one framework event hold the token of an
entry as often as the compartment does. -/
theorem Framework.DispatchFrameworkEvent_received (behaviour : ListenerBehaviour)
    (fw : Framework) (evt : FrameworkEvent) (k : Nat) :
    (Framework.DispatchFrameworkEvent behaviour fw evt).received k
      = fw.received k ++
        (fw.listeners.frameworkListeners.entries.filter (fun e => e.token == k)).map
          (fun _ => evt) := by
  rw [Framework.DispatchFrameworkEvent_eq]
  simp only [Framework.received, List.filter_append, List.map_append, List.filter_map,
    List.map_map]
  congr 1

/-- Dispatching framework events one after the other calls the listener of an
entry once per event, when tokens are pairwise distinct. -/
theorem Framework.dispatchAll_received (behaviour : ListenerBehaviour)
    (evts : List FrameworkEvent) (fw : Framework) (e : ListenerEntry)
    (hnd : (fw.listeners.frameworkListeners.entries.map ListenerEntry.token).Nodup)
    (he : e ∈ fw.listeners.frameworkListeners.entries) :
    (Framework.dispatchAll behaviour fw evts).received e.token
      = fw.received e.token ++ evts := by
  induction evts generalizing fw with
  | nil => simp [Framework.dispatchAll]
  | cons evt evts ih =>
    simp only [Framework.dispatchAll, List.foldl_cons]
    have hl : (Framework.DispatchFrameworkEvent behaviour fw evt).listeners
        = fw.listeners := by
      rw [Framework.DispatchFrameworkEvent_eq]
    have h1 := ih (Framework.DispatchFrameworkEvent behaviour fw evt)
      (by rw [hl]; exact hnd) (by rw [hl]; exact he)
    simp only [Framework.dispatchAll] at h1
    rw [h1, Framework.DispatchFrameworkEvent_received]
    have hone := ListenerEntry.length_filter_token_eq _ e hnd he
    obtain ⟨x, hx⟩ := List.length_eq_one.1 hone
    rw [hx]
    simp

/-- A framework whose framework compartment is empty calls no listener,
whatever framework events are dispatched. -/
theorem Framework.dispatchAll_of_no_listener (behaviour : ListenerBehaviour)
    (evts : List FrameworkEvent) (fw : Framework)
    (h : fw.listeners.frameworkListeners.entries = []) :
    Framework.dispatchAll behaviour fw evts = fw := by
  induction evts generalizing fw with
  | nil => rfl
  | cons evt evts ih =>
    simp only [Framework.dispatchAll, List.foldl_cons]
    have h1 : Framework.DispatchFrameworkEvent behaviour fw evt = fw := by
      rw [Framework.DispatchFrameworkEvent_eq, h]
      simp [thrownLines]
    rw [h1]
    exact ih fw h

/-! ## Theorems about dispatch and the framework lifecycle -/

/-- C19: `Stop` leaves no entry in any compartment, so whatever listeners were
added before it, the `Start` that follows `Stop` and `WaitForStop` and every
framework event dispatched after it call no listener at all.  In particular,
in a framework that is not started and whose framework compartment satisfies
the table invariant, a listener added through the framework context is called
once by the first `Start`, with `STARTED`, and after `Stop`, `WaitForStop` and
the second `Start` it has still received that one event only. -/
theorem Framework.Stop_releases_listeners (behaviour : ListenerBehaviour)
    (fw : Framework) (c : Callable)
    (hstopped : fw.active = false)
    (hwf : fw.listeners.frameworkListeners.WF) :
    (Framework.Start behaviour (fw.AddFrameworkListener c).2).received
        (fw.AddFrameworkListener c).1
      = fw.received (fw.AddFrameworkListener c).1 ++ [frameworkStarted] ∧
    (∀ (g : Framework) (X : ListenerKind),
      ((Framework.Stop g).listeners.compartment X).entries = []) ∧
    (∀ (g : Framework) (evts : List FrameworkEvent),
      (Framework.dispatchAll behaviour
        (Framework.Start behaviour (Framework.WaitForStop (Framework.Stop g) 0).2)
        evts).invocations = g.invocations) ∧
    (Framework.Start behaviour
      (Framework.WaitForStop
        (Framework.Stop (Framework.Start behaviour (fw.AddFrameworkListener c).2))
        0).2).received (fw.AddFrameworkListener c).1
      = fw.received (fw.AddFrameworkListener c).1 ++ [frameworkStarted] := by
  obtain ⟨e, he, htok, _⟩ :=
    Compartment.AddListener_token_mem fw.listeners.frameworkListeners 0 c
  have hwf1 := Compartment.AddListener_WF fw.listeners.frameworkListeners 0 c hwf
  have hfirst : (Framework.Start behaviour (fw.AddFrameworkListener c).2).received
      (fw.AddFrameworkListener c).1
        = fw.received (fw.AddFrameworkListener c).1 ++ [frameworkStarted] := by
    have hd := Framework.dispatchAll_received behaviour [frameworkStarted]
      { (fw.AddFrameworkListener c).2 with active := true } e
      (by simpa [Framework.AddFrameworkListener, ListenerTable.AddXListener,
            ListenerTable.compartment, ListenerTable.update] using hwf1.2.1)
      (by simpa [Framework.AddFrameworkListener, ListenerTable.AddXListener,
            ListenerTable.compartment, ListenerTable.update] using he)
    have hk : (fw.AddFrameworkListener c).1 = e.token := by
      rw [htok]
      rfl
    rw [hk]
    simpa [Framework.Start, hstopped, Framework.AddFrameworkListener, Framework.dispatchAll,
      Framework.received] using hd
  have hstop : ∀ g : Framework,
      Framework.Start behaviour (Framework.WaitForStop (Framework.Stop g) 0).2
        = { Framework.Stop g with active := true } := by
    intro g
    simp only [Framework.WaitForStop, Framework.Start, Framework.Stop]
    rw [Framework.DispatchFrameworkEvent_eq]
    simp [thrownLines]
  refine ⟨hfirst, ?_, ?_, ?_⟩
  · intro g X
    cases X <;> rfl
  · intro g evts
    rw [hstop, Framework.dispatchAll_of_no_listener behaviour evts _ rfl]
    rfl
  · rw [hstop]
    exact hfirst

/-- C19 at the test: after `Init`, a lambda listener added, `Start`, `Stop`,
`WaitForStop` and `Start`, the listener has received one event. -/
theorem Framework.Stop_releases_listeners_witness :
    ((Framework.Start Test.behaviour
      (Framework.WaitForStop
        (Framework.Stop
          (Framework.Start Test.behaviour
            (Test.initialised.AddFrameworkListener Test.lambda1).2))
        0).2).received (Test.initialised.AddFrameworkListener Test.lambda1).1).length
      = 1 := by
  have h := Framework.Stop_releases_listeners Test.behaviour Test.initialised Test.lambda1
    rfl Compartment.empty_WF
  rw [h.2.2.2]
  decide

/-- C20: when a framework event is dispatched to a compartment with pairwise
distinct tokens and the listener of one of its entries throws, the dispatch
completes: the calls it makes are one per entry, in insertion order and with
the dispatched event, so the throwing listener is called once and no listener
is called with an `ERROR` event unless that is the event dispatched; the line
`A Framework Listener threw an exception:` followed by the message is added to
the sink, every added line starts with those words, and the listener table is
unchanged; over a sequence of dispatched events the throwing listener is
called once per event. -/
theorem Framework.DispatchFrameworkEvent_contains_throw (behaviour : ListenerBehaviour)
    (fw : Framework) (evt : FrameworkEvent) (e : ListenerEntry) (x : us.Exn)
    (hnd : (fw.listeners.frameworkListeners.entries.map ListenerEntry.token).Nodup)
    (he : e ∈ fw.listeners.frameworkListeners.entries)
    (hthrow : behaviour e.callable evt = us.Call.throws x) :
    (∃ calls,
      (Framework.DispatchFrameworkEvent behaviour fw evt).invocations
        = fw.invocations ++ calls ∧
      calls = fw.listeners.frameworkListeners.entries.map (ListenerEntry.invokedWith evt) ∧
      (∀ call ∈ calls, call.event = evt) ∧
      (evt.type ≠ us.FrameworkEventType.ERROR →
        ∀ call ∈ calls, call.event.type ≠ us.FrameworkEventType.ERROR) ∧
      (calls.filter (fun call => call.token == e.token)).length = 1) ∧
    (∃ lines,
      (Framework.DispatchFrameworkEvent behaviour fw evt).sink = fw.sink ++ lines ∧
      ("A Framework Listener threw an exception:" ++ " " ++ x.what) ∈ lines ∧
      ∀ line ∈ lines, ∃ rest, line = "A Framework Listener threw an exception:" ++ rest) ∧
    (Framework.DispatchFrameworkEvent behaviour fw evt).listeners = fw.listeners ∧
    ∀ evts : List FrameworkEvent,
      (Framework.dispatchAll behaviour fw evts).received e.token
        = fw.received e.token ++ evts := by
  rw [Framework.DispatchFrameworkEvent_eq]
  have hev : ∀ call ∈ fw.listeners.frameworkListeners.entries.map
      (ListenerEntry.invokedWith evt), call.event = evt := by
    intro call hcall
    simp only [List.mem_map] at hcall
    obtain ⟨a, _, rfl⟩ := hcall
    rfl
  refine ⟨⟨_, rfl, rfl, hev, ?_, ?_⟩, ⟨_, rfl, ?_, ?_⟩, rfl, ?_⟩
  · intro hne call hcall
    rw [hev call hcall]
    exact hne
  · have hone := ListenerEntry.length_filter_token_eq _ e hnd he
    simp only [List.filter_map, List.length_map]
    exact hone
  · exact thrownLines_mem behaviour evt _ e x he hthrow
  · exact thrownLines_start behaviour evt _
  · intro evts
    exact Framework.dispatchAll_received behaviour evts fw e hnd he

/-- C20 at the test: `throwOnFrameworkEvent` added after `Init`, then `Start`:
the listener is called once, with `STARTED`, and the sink holds the line of
the dispatcher with "whoopsie!". -/
theorem Framework.DispatchFrameworkEvent_contains_throw_witness :
    (Framework.Start Test.behaviour
      (Test.initialised.AddFrameworkListener Test.throwOnFrameworkEvent).2).sink
      = ["A Framework Listener threw an exception: whoopsie!"] ∧
    ((Framework.DispatchFrameworkEvent Test.behaviour
      (Test.initialised.AddFrameworkListener Test.throwOnFrameworkEvent).2
      frameworkStarted).invocations.map Invocation.event) = [frameworkStarted] ∧
    ∃ lines,
      (Framework.DispatchFrameworkEvent Test.behaviour
        (Test.initialised.AddFrameworkListener Test.throwOnFrameworkEvent).2
        frameworkStarted).sink
        = (Test.initialised.AddFrameworkListener Test.throwOnFrameworkEvent).2.sink
          ++ lines ∧
      ("A Framework Listener threw an exception:" ++ " " ++ "whoopsie!") ∈ lines :=
  have h := Framework.DispatchFrameworkEvent_contains_throw Test.behaviour
    (Test.initialised.AddFrameworkListener Test.throwOnFrameworkEvent).2 frameworkStarted
    { token := 0, identity := some (Identity.member 30 9),
      callable := Test.throwOnFrameworkEvent, owner_module := 0 }
    { what := "whoopsie!" } (by decide) (by decide) (by decide)
  ⟨by decide, by decide, h.2.1.choose, h.2.1.choose_spec.1, h.2.1.choose_spec.2.1⟩

end cppmicroservices

namespace us

/-! ## The module as listeners see it -/

/-- The snapshots of two traces in a row. -/
theorem moduleSnapshots_append (s t : List Action) :
    moduleSnapshots (s ++ t) = moduleSnapshots s ++ moduleSnapshots t := by
  simp [moduleSnapshots, List.filterMap_append]

/-- The autoload step dispatches no module event. -/
theorem moduleSnapshots_autoloadActions (env : Env) (info : ModuleInfo) :
    moduleSnapshots (autoloadActions env info) = [] := by
  unfold autoloadActions
  split <;> simp [moduleSnapshots]

/-- The `Unload` call dispatches no module event. -/
theorem moduleSnapshots_unloadActions (w : World) (ctx : ModuleContextPtr) :
    moduleSnapshots (unloadActions w ctx) = [] := by
  unfold unloadActions
  split <;> simp [moduleSnapshots]

/-- The autoload step, when it runs, returns or throws. -/
theorem Env.autoloadReturns_or_throws (env : Env) (info : ModuleInfo) :
    env.autoloadReturns info ∨
    ∃ e, (env.US_ENABLE_AUTOLOADING_SUPPORT && env.IsAutoLoadingEnabled) = true ∧
      env.AutoLoadModules info = Call.throws e := by
  cases hflag : (env.US_ENABLE_AUTOLOADING_SUPPORT && env.IsAutoLoadingEnabled) with
  | false =>
    left
    intro h
    rw [hflag] at h
    cases h
  | true =>
    cases hauto : env.AutoLoadModules info with
    | returns u => left; intro _; exact hauto
    | throws e => right; exact ⟨e, rfl, rfl⟩

/-- A `Start` on a module that is not loaded returns only in two ways: without
activator symbol, or with a hook that returns an activator whose `Load`
returns; in both the autoload step returns. -/
theorem Module.Start_returned_cases (env : Env) (w : World)
    (hctx : w.d.moduleContext = none)
    (hstart : (Module.Start env w).1 = Result.returned) :
    env.autoloadReturns w.d.info ∧
    (env.GetSymbol w.d.info (c_str (activator_func w.d.info)) = none ∨
      ∃ hook activator,
        env.GetSymbol w.d.info (c_str (activator_func w.d.info)) = some hook ∧
        env.activatorHook hook = Call.returns (some activator) ∧
        env.Load activator w.heap = Call.returns ()) := by
  have hreach : env.GetSymbol w.d.info (c_str (activator_func w.d.info)) = none ∨
      ∃ hook activator,
        env.GetSymbol w.d.info (c_str (activator_func w.d.info)) = some hook ∧
        env.activatorHook hook = Call.returns (some activator) ∧
        env.Load activator w.heap = Call.returns () := by
    cases hsym : env.GetSymbol w.d.info (c_str (activator_func w.d.info)) with
    | none => exact Or.inl rfl
    | some hook =>
      right
      cases hhook : env.activatorHook hook with
      | throws e =>
        rw [Module.Start_eq_of_hook_throws env w hook e hctx hsym hhook] at hstart
        cases hstart
      | returns a =>
        cases a with
        | none =>
          simp [Module.Start, Module.Start.activate, hctx, hsym, hhook, World.emit]
            at hstart
        | some activator =>
          cases hload : env.Load activator w.heap with
          | throws e =>
            rw [Module.Start_eq_of_Load_throws env w hook activator e hctx hsym hhook
              hload] at hstart
            cases hstart
          | returns u => exact ⟨hook, activator, rfl, hhook, hload⟩
  refine ⟨?_, hreach⟩
  rcases Env.autoloadReturns_or_throws env w.d.info with h | ⟨e, hflag, hauto⟩
  · exact h
  · obtain ⟨hnone, hsome⟩ := Module.Start_eq_of_autoload_throws env w e hctx hflag hauto
    rcases hreach with hsym | ⟨hook, activator, hsym, hhook, hload⟩
    · rw [hnone hsym] at hstart
      cases hstart
    · rw [hsome hook activator hsym hhook hload] at hstart
      cases hstart

/-- A `Stop` on a loaded module returns only when `Unload`, if there is an
activator, returns. -/
theorem Module.Stop_returned_cases (env : Env) (w : World) (ctx : ModuleContextPtr)
    (hctx : w.d.moduleContext = some ctx)
    (hstop : (Module.Stop env w).1 = Result.returned) :
    ∀ activator, w.d.moduleActivator = some activator →
      env.Unload activator ctx = Call.returns () := by
  intro activator hact
  cases hunload : env.Unload activator ctx with
  | returns u => rfl
  | throws e =>
    rw [Module.Stop_eq_of_Unload_throws env w ctx activator e hctx hact hunload] at hstop
    cases hstop

/-- A `Stop` that returns on a loaded module dispatches `UNLOADING` with the
module as it is and `UNLOADED` with the context pointer cleared and the
activator pointer untouched; afterwards both pointers are null. -/
theorem Module.Stop_snapshots (env : Env) (w : World) (ctx : ModuleContextPtr)
    (hctx : w.d.moduleContext = some ctx)
    (hstop : (Module.Stop env w).1 = Result.returned) :
    ∃ calls,
      (Module.Stop env w).2.trace = w.trace ++ calls ∧
      moduleSnapshots calls =
        [(ModuleEventType.UNLOADING, w.d),
         (ModuleEventType.UNLOADED, { w.d with moduleContext := none })] ∧
      (Module.Stop env w).2.d.moduleActivator = none := by
  have hU := Module.Stop_returned_cases env w ctx hctx hstop
  rw [Module.Stop_eq_of_success env w ctx hctx hU]
  refine ⟨[Action.ModuleChanged ModuleEventType.UNLOADING w.d]
             ++ unloadActions w ctx ++
             [Action.RemoveModuleResources,
              Action.deleteModuleContext ctx,
              Action.ModuleChanged ModuleEventType.UNLOADED
                { w.d with moduleContext := none }], rfl, ?_, rfl⟩
  simp only [moduleSnapshots_append, moduleSnapshots_unloadActions]
  simp [moduleSnapshots]

/-- A `Start` that returns on a module that is not loaded dispatches `LOADING`
with the context pointer set and the activator pointer as before, and `LOADED`
with the module as `Start` leaves it, which has its context pointer set. -/
theorem Module.Start_snapshots (env : Env) (w : World)
    (hctx : w.d.moduleContext = none)
    (hstart : (Module.Start env w).1 = Result.returned) :
    ∃ calls,
      (Module.Start env w).2.trace = w.trace ++ calls ∧
      moduleSnapshots calls =
        [(ModuleEventType.LOADING, { w.d with moduleContext := some w.heap }),
         (ModuleEventType.LOADED, (Module.Start env w).2.d)] ∧
      (Module.Start env w).2.d.moduleContext = some w.heap ∧
      ∀ hook activator,
        env.GetSymbol w.d.info (c_str (activator_func w.d.info)) = some hook →
        env.activatorHook hook = Call.returns (some activator) →
        (Module.Start env w).2.d.moduleActivator = some activator := by
  obtain ⟨hauto, hreach⟩ := Module.Start_returned_cases env w hctx hstart
  rcases hreach with hsym | ⟨hook, activator, hsym, hhook, hload⟩
  · rw [Module.Start_eq_of_no_symbol env w hctx hsym hauto]
    refine ⟨[Action.newModuleContext w.heap,
              Action.GetSymbol w.d.info (c_str (activator_func w.d.info)),
              Action.ModuleChanged ModuleEventType.LOADING
                { w.d with moduleContext := some w.heap }]
             ++ autoloadActions env w.d.info ++
             [Action.ModuleChanged ModuleEventType.LOADED
                { w.d with moduleContext := some w.heap }], rfl, ?_, rfl, ?_⟩
    · simp only [moduleSnapshots_append, moduleSnapshots_autoloadActions]
      simp [moduleSnapshots]
    · intro hook activator hsym2
      rw [hsym] at hsym2
      cases hsym2
  · rw [Module.Start_eq_of_success env w hook activator hctx hsym hhook hload hauto]
    refine ⟨[Action.newModuleContext w.heap,
              Action.GetSymbol w.d.info (c_str (activator_func w.d.info)),
              Action.ModuleChanged ModuleEventType.LOADING
                { w.d with moduleContext := some w.heap },
              Action.activatorHook hook,
              Action.Load activator w.heap]
             ++ autoloadActions env w.d.info ++
             [Action.ModuleChanged ModuleEventType.LOADED
                { w.d with moduleContext := some w.heap,
                           moduleActivator := some activator }], rfl, ?_, rfl, ?_⟩
    · simp only [moduleSnapshots_append, moduleSnapshots_autoloadActions]
      simp [moduleSnapshots]
    · intro hook2 activator2 hsym2 hhook2
      rw [hsym] at hsym2
      cases hsym2
      rw [hhook] at hhook2
      cases hhook2
      rfl

/-- A `Start` on a loaded module dispatches no module event and leaves the
module record as it is. -/
theorem Module.Start_snapshots_of_loaded (env : Env) (w : World) (ctx : ModuleContextPtr)
    (hctx : w.d.moduleContext = some ctx) :
    ∃ calls,
      (Module.Start env w).2.trace = w.trace ++ calls ∧
      moduleSnapshots calls = [] ∧
      (Module.Start env w).2.d = w.d := by
  rw [Module.Start_eq_of_loaded env w ctx hctx]
  exact ⟨[Action.US_WARN ("Module " ++ w.d.info.name ++ " already started.")], rfl,
    by simp [moduleSnapshots], rfl⟩

/-- C23, as the code has it: for every module, when `Start` returns and the
`Stop` after it returns, every module event dispatched by the two calls shows
listeners `IsLoaded()` true if it is `LOADING`, `LOADED` or `UNLOADING` and
false if it is `UNLOADED`; at `UNLOADED` the activator pointer is the one the
module had after `Start` (so it is set when the module has an activator, null
when it has none), and it is null once `Stop` has returned.  For a module that
was not loaded the events are exactly `LOADING`, `LOADED`, `UNLOADING`,
`UNLOADED`, and an activator returned by the hook is the one seen at
`UNLOADED`. -/
theorem Module.events_see_loaded_flag (env : Env) (w : World)
    (hstart : (Module.Start env w).1 = Result.returned)
    (hstop : (Module.Stop env (Module.Start env w).2).1 = Result.returned) :
    ∃ calls,
      (Module.Stop env (Module.Start env w).2).2.trace = w.trace ++ calls ∧
      (∀ type m, (type, m) ∈ moduleSnapshots calls →
        (type = ModuleEventType.LOADING ∨ type = ModuleEventType.LOADED ∨
          type = ModuleEventType.UNLOADING → seenLoaded m = true) ∧
        (type = ModuleEventType.UNLOADED →
          seenLoaded m = false ∧
          m.moduleActivator = (Module.Start env w).2.d.moduleActivator)) ∧
      (∃ m, (ModuleEventType.UNLOADED, m) ∈ moduleSnapshots calls) ∧
      (Module.Stop env (Module.Start env w).2).2.d.moduleActivator = none ∧
      (Module.IsLoaded w = false →
        ∃ mLoading mLoaded mUnloading mUnloaded,
          moduleSnapshots calls =
            [(ModuleEventType.LOADING, mLoading), (ModuleEventType.LOADED, mLoaded),
             (ModuleEventType.UNLOADING, mUnloading),
             (ModuleEventType.UNLOADED, mUnloaded)] ∧
          ∀ hook activator,
            env.GetSymbol w.d.info (c_str (activator_func w.d.info)) = some hook →
            env.activatorHook hook = Call.returns (some activator) →
            mUnloaded.moduleActivator = some activator) := by
  cases hctx : w.d.moduleContext with
  | none =>
    obtain ⟨c1, ht1, hs1, hctx1, hact1⟩ := Module.Start_snapshots env w hctx hstart
    obtain ⟨c2, ht2, hs2, hnone⟩ :=
      Module.Stop_snapshots env (Module.Start env w).2 w.heap hctx1 hstop
    have hs : moduleSnapshots (c1 ++ c2) =
        [(ModuleEventType.LOADING, { w.d with moduleContext := some w.heap }),
         (ModuleEventType.LOADED, (Module.Start env w).2.d),
         (ModuleEventType.UNLOADING, (Module.Start env w).2.d),
         (ModuleEventType.UNLOADED,
           { (Module.Start env w).2.d with moduleContext := none })] := by
      rw [moduleSnapshots_append, hs1, hs2]
      rfl
    refine ⟨c1 ++ c2, ?_, ?_, ?_, hnone, ?_⟩
    · rw [ht2, ht1, List.append_assoc]
    · intro type m hm
      rw [hs] at hm
      simp only [List.mem_cons, Prod.mk.injEq, List.mem_singleton, List.mem_nil_iff,
        or_false] at hm
      rcases hm with ⟨ht, hm⟩ | ⟨ht, hm⟩ | ⟨ht, hm⟩ | ⟨ht, hm⟩ <;> subst ht <;> subst hm
      · exact ⟨fun _ => by simp [seenLoaded], fun h => by cases h⟩
      · exact ⟨fun _ => by simp [seenLoaded, hctx1], fun h => by cases h⟩
      · exact ⟨fun _ => by simp [seenLoaded, hctx1], fun h => by cases h⟩
      · refine ⟨fun h => ?_, fun _ => ⟨by simp [seenLoaded], rfl⟩⟩
        rcases h with h | h | h <;> cases h
    · rw [hs]
      exact ⟨{ (Module.Start env w).2.d with moduleContext := none }, by simp⟩
    · intro _
      exact ⟨_, _, _, _, hs, hact1⟩
  | some ctx =>
    obtain ⟨c1, ht1, hs1, hd1⟩ := Module.Start_snapshots_of_loaded env w ctx hctx
    have hctx1 : (Module.Start env w).2.d.moduleContext = some ctx := by
      rw [hd1]
      exact hctx
    obtain ⟨c2, ht2, hs2, hnone⟩ :=
      Module.Stop_snapshots env (Module.Start env w).2 ctx hctx1 hstop
    have hs : moduleSnapshots (c1 ++ c2) =
        [(ModuleEventType.UNLOADING, (Module.Start env w).2.d),
         (ModuleEventType.UNLOADED,
           { (Module.Start env w).2.d with moduleContext := none })] := by
      rw [moduleSnapshots_append, hs1, hs2]
      rfl
    refine ⟨c1 ++ c2, ?_, ?_, ?_, hnone, ?_⟩
    · rw [ht2, ht1, List.append_assoc]
    · intro type m hm
      rw [hs] at hm
      simp only [List.mem_cons, Prod.mk.injEq, List.mem_singleton, List.mem_nil_iff,
        or_false] at hm
      rcases hm with ⟨ht, hm⟩ | ⟨ht, hm⟩ <;> subst ht <;> subst hm
      · exact ⟨fun _ => by simp [seenLoaded, hctx1], fun h => by cases h⟩
      · refine ⟨fun h => ?_, fun _ => ⟨by simp [seenLoaded], rfl⟩⟩
        rcases h with h | h | h <;> cases h
    · rw [hs]
      exact ⟨{ (Module.Start env w).2.d with moduleContext := none }, by simp⟩
    · intro hnot
      have := (Module.not_loaded_iff w).1 hnot
      rw [hctx] at this
      cases this

/-- C23 as amended, at `goodEnv`: `Start` and `Stop` of `TestModuleA` return,
the four events carry `IsLoaded()` true, true, true, false, the module of
`UNLOADED` still has activator 3, and after `Stop` the activator pointer is
null. -/
theorem Module.events_see_loaded_flag_witness :
    (Module.Start goodEnv installedWorld).1 = Result.returned ∧
    (Module.Stop goodEnv (Module.Start goodEnv installedWorld).2).1 = Result.returned ∧
    (moduleSnapshots
      (Module.Stop goodEnv (Module.Start goodEnv installedWorld).2).2.trace).map
        (fun s => (s.1, seenLoaded s.2, s.2.moduleActivator))
      = [(ModuleEventType.LOADING, true, none), (ModuleEventType.LOADED, true, some 3),
         (ModuleEventType.UNLOADING, true, some 3),
         (ModuleEventType.UNLOADED, false, some 3)] ∧
    (Module.Stop goodEnv (Module.Start goodEnv installedWorld).2).2.d.moduleActivator
      = none := by
  obtain ⟨_, _, _, _, hnone, _⟩ :=
    Module.events_see_loaded_flag goodEnv installedWorld (by decide) (by decide)
  exact ⟨by decide, by decide, by decide, hnone⟩

/-- C23 as stated fails for a module without activator: `Start` and `Stop`
both return, and the module that listeners see at `UNLOADED` has a null
activator pointer, as it has at the three events before. -/
theorem Module.UNLOADED_without_activator_handle :
    Module.IsLoaded installedWorld = false ∧
    (Module.Start noSymbolEnv installedWorld).1 = Result.returned ∧
    (Module.Stop noSymbolEnv (Module.Start noSymbolEnv installedWorld).2).1
      = Result.returned ∧
    (moduleSnapshots
      (Module.Stop noSymbolEnv (Module.Start noSymbolEnv installedWorld).2).2.trace).map
        (fun s => (s.1, s.2.moduleActivator))
      = [(ModuleEventType.LOADING, none), (ModuleEventType.LOADED, none),
         (ModuleEventType.UNLOADING, none), (ModuleEventType.UNLOADED, none)] ∧
    ¬ ∃ m activator,
      (ModuleEventType.UNLOADED, m) ∈ moduleSnapshots
        (Module.Stop noSymbolEnv (Module.Start noSymbolEnv installedWorld).2).2.trace ∧
      m.moduleActivator = some activator := by
  refine ⟨by decide, by decide, by decide, by decide, ?_⟩
  rintro ⟨m, activator, hm, hact⟩
  have hall : ∀ s ∈ moduleSnapshots
      (Module.Stop noSymbolEnv (Module.Start noSymbolEnv installedWorld).2).2.trace,
      s.2.moduleActivator = none := by
    decide
  have := hall _ hm
  rw [hact] at this
  cases this

end us

namespace ZipInfo

/-! ## The compare mode of the zip listing tool -/

/-- One turn of the loop of `getStrRepEntries` ends the string with a comma. -/
theorem getStrRepEntries.step_ends_with_comma (retStr : String) (entry : EntryInfo) :
    getStrRepEntries.step retStr entry =
      (retStr ++ (getStrRepEntries.file_or_dir entry.type ++ ","
          ++ std.to_string entry.compressedSize ++ ",")
        ++ (std.to_string entry.uncompressedSize ++ ","
          ++ std.to_string entry.crc32 ++ ",")
        ++ entry.name) ++ "," := by
  simp only [getStrRepEntries.step, String.append_assoc]

/-- The string of a non-empty list of entries ends in a comma: the loop closes
every entry, the last one too, with `name + ","`. -/
theorem getStrRepEntries_ends_with_comma (entries : List EntryInfo)
    (hne : entries ≠ []) :
    ∃ s, getStrRepEntries entries = s ++ "," := by
  have hsplit := List.dropLast_append_getLast hne
  rw [← hsplit, getStrRepEntries, List.foldl_append, List.foldl_cons, List.foldl_nil,
    getStrRepEntries.step_ends_with_comma]
  exact ⟨_, rfl⟩

/-- No archive has the compare string of the usage text as its listing: the
listing is empty or ends in a comma, the compare string ends in `n`. -/
theorem getStrRepEntries_ne_documentedCompareString (entries : List EntryInfo) :
    getStrRepEntries entries ≠ documentedCompareString := by
  intro h
  cases entries with
  | nil => revert h; decide
  | cons e es =>
    obtain ⟨s, hs⟩ := getStrRepEntries_ends_with_comma (e :: es) (List.cons_ne_nil e es)
    rw [h] at hs
    have hd := congrArg (fun t => t.data.getLast?) hs
    simp only [String.data_append, List.getLast?_append] at hd
    revert hd
    rw [show documentedCompareString.data.getLast? = some 'n' by decide]
    simp

/-- The compare mode on an archive that can be read: the exit status is
`EXIT_SUCCESS`, nothing goes to `std::cerr`, and `std::cout` gets `PASS` when
the compare string equals the listing and `FAIL` with a line break otherwise,
followed by the listing and the compare string, a line each. -/
theorem main_compare (lib : Miniz) (argv0 filename testStr : String)
    (entries : List EntryInfo)
    (hread : readZipFile lib filename = Except.ok entries) :
    main lib [argv0, filename, testStr] =
      { stdout := (if testStr = getStrRepEntries entries then "PASS" else "FAIL\n")
          ++ (getStrRepEntries entries ++ "\n") ++ (testStr ++ "\n"),
        stderr := "",
        status := 0 } := by
  simp [main, main.compare, hread, endl, EXIT_SUCCESS]

/-- The compare string of the usage text never gives `PASS`, whatever the
archive holds. -/
theorem main_documentedCompareString_FAIL (lib : Miniz) (argv0 filename : String)
    (entries : List EntryInfo)
    (hread : readZipFile lib filename = Except.ok entries) :
    (main lib [argv0, filename, documentedCompareString]).stdout =
      "FAIL\n" ++ (getStrRepEntries entries ++ "\n")
        ++ (documentedCompareString ++ "\n") := by
  rw [main_compare lib argv0 filename documentedCompareString entries hread]
  simp [(getStrRepEntries_ne_documentedCompareString entries).symm]

/-- C21, the code against its usage text: on an archive whose only entry is
the file `manifest.json` with compressed size 79, uncompressed size 102 and
crc32 3826964650, the compare string `File,79,102,3826964650,manifest.json` of
the usage text prints `FAIL`, because the listing it is compared with ends in
a comma; the same string with a comma appended prints `PASS`. -/
theorem main_documented_example_prints_FAIL :
    main exampleLib ["ZipInfo", "Example.zip", "File,79,102,3826964650,manifest.json"]
      = { stdout := "FAIL\nFile,79,102,3826964650,manifest.json,\nFile,79,102,3826964650,manifest.json\n",
          stderr := "",
          status := 0 } ∧
    main exampleLib ["ZipInfo", "Example.zip", "File,79,102,3826964650,manifest.json,"]
      = { stdout := "PASSFile,79,102,3826964650,manifest.json,\nFile,79,102,3826964650,manifest.json,\n",
          stderr := "",
          status := 0 } := by
  constructor <;> decide

end ZipInfo

namespace cppmicroservices

/-! ## Function traits -/

/-- On a class type `is_functor_with_signature` has a value, and it is true
exactly when the class has a call operator of the unqualified member function
type. -/
theorem is_functor_with_signature_classType (name : String) (c v : Bool)
    (callOperator : MemberFunctionType → Bool) (S : Signature) :
    is_functor_with_signature (CppType.classType name c v callOperator) S =
      some (callOperator (MemberFunctionType.plain S)) := by
  simp [is_functor_with_signature, is_functor_with_signature.sizeof_deduce,
    build_class_function, addressOfCallOperator, is_functor_with_signature.sizeof_yes,
    is_functor_with_signature.sizeof_no]
  cases callOperator (MemberFunctionType.plain S) <;> simp

/-- A type is the same as `R (*)(Args...)` exactly when it is that type. -/
theorem std.is_same_functionPointer (T : CppType) (S : Signature) :
    std.is_same T (CppType.functionPointer S) = true ↔ T = CppType.functionPointer S := by
  cases T <;> simp [std.is_same]

/-- C22: `is_functor_or_free_function<Callable, S>::value` is well-formed for
every type `Callable` and every signature `S`; it is true exactly when
`Callable` is a class (`std::is_class`) that has an `operator()` of type
`R (Args...)`, or `Callable` is the function pointer type `R (*)(Args...)`; it
is false for every function type; on a class type it is
`is_functor_with_signature<Callable, S>::value`, on any other type it is
`is_function_with_signature<Callable, S>::value`. -/
theorem is_functor_or_free_function_spec (callable : CppType) (S : Signature) :
    (∃ value, is_functor_or_free_function callable S = some value) ∧
    (is_functor_or_free_function callable S = some true ↔
      (∃ name c v callOperator,
        callable = CppType.classType name c v callOperator ∧
        callOperator (MemberFunctionType.plain S) = true) ∨
      callable = CppType.functionPointer S) ∧
    (∀ S2, is_functor_or_free_function (CppType.function S2) S = some false) ∧
    is_functor_or_free_function callable S =
      (if std.is_class callable then is_functor_with_signature callable S
       else some (is_function_with_signature callable S)) := by
  refine ⟨?_, ?_, ?_, ?_⟩
  · cases callable with
    | classType name c v callOperator =>
      exact ⟨_, is_functor_with_signature_classType name c v callOperator S⟩
    | _ => exact ⟨_, rfl⟩
  · cases callable with
    | classType name c v callOperator =>
      have h := is_functor_with_signature_classType name c v callOperator S
      simp only [is_functor_or_free_function, is_functor_or_free_function_impl,
        std.is_class] at h ⊢
      rw [h]
      simp only [Option.some.injEq, CppType.classType.injEq, or_false, reduceCtorEq]
      constructor
      · intro hm
        exact ⟨name, c, v, callOperator, ⟨rfl, rfl, rfl, rfl⟩, hm⟩
      · rintro ⟨_, _, _, _, ⟨rfl, rfl, rfl, rfl⟩, hm⟩
        exact hm
    | unionType name c v callOperator =>
      simp [is_functor_or_free_function, is_functor_or_free_function_impl, std.is_class,
        is_function_with_signature, std.is_same, build_free_function]
    | functionPointer S1 =>
      simp [is_functor_or_free_function, is_functor_or_free_function_impl, std.is_class,
        is_function_with_signature, std.is_same, build_free_function]
    | function S1 =>
      simp [is_functor_or_free_function, is_functor_or_free_function_impl, std.is_class,
        is_function_with_signature, std.is_same, build_free_function]
    | memberFunctionPointer C F =>
      simp [is_functor_or_free_function, is_functor_or_free_function_impl, std.is_class,
        is_function_with_signature, std.is_same, build_free_function]
    | other name =>
      simp [is_functor_or_free_function, is_functor_or_free_function_impl, std.is_class,
        is_function_with_signature, std.is_same, build_free_function]
  · intro S2
    simp [is_functor_or_free_function, is_functor_or_free_function_impl, std.is_class,
      is_function_with_signature, std.is_same, build_free_function]
  · cases callable <;> rfl

/-- C22 on sample types: the trait is true for `CallbackFunctor` and for the
function pointer type of the signature; `void (*)(int)` has the signature
`void (const int)`; the trait is false for the function type, for a class
whose call operator is `const`, for a union, and for the function pointer type
of another result type. -/
theorem is_functor_or_free_function_spec_witness :
    is_functor_or_free_function CallbackFunctor listenerSignature = some true ∧
    is_functor_or_free_function (CppType.functionPointer listenerSignature)
      listenerSignature = some true ∧
    is_functor_or_free_function
      (CppType.functionPointer (functionType voidType [intType false]))
      (functionType voidType [intType true]) = some true ∧
    is_functor_or_free_function (CppType.function listenerSignature)
      listenerSignature = some false ∧
    is_functor_or_free_function constFunctor listenerSignature = some false ∧
    is_functor_or_free_function unionFunctor listenerSignature = some false ∧
    is_functor_with_signature unionFunctor listenerSignature = some true ∧
    is_functor_or_free_function
      (CppType.functionPointer (functionType (intType false) []))
      (functionType (intType true) []) = some false :=
  ⟨(is_functor_or_free_function_spec CallbackFunctor listenerSignature).2.1.2
      (Or.inl ⟨_, _, _, _, rfl, by decide⟩),
    by decide, by decide, by decide, by decide, by decide, by decide, by decide⟩

end cppmicroservices
